import Mathlib

/-!
# Gaplus driver (src/mame/drivers/gaplus.c): control and interconnect logic

A shallow embedding of the driver's write handlers, machine reset and
per-frame interrupt generator.  The machine is an explicit state record; each
handler of the driver is a function from state to state.  Integers of the C
source are natural numbers; `offset` is the offset inside the mapped address
range, `data` the byte carried by the access.

The driver calls into the emulator core (CPU execution, namcoio, sound, coin
and lamp outputs).  Those functions are not part of the driver file; each of
them is modelled below from the design document and marked as such.
-/

set_option linter.unusedVariables false

namespace Gaplus

/-! ## Data model -/

/-- Modelled from the spec: the line states of the emulator core
(`CLEAR_LINE`, `ASSERT_LINE`, `HOLD_LINE`, `PULSE_LINE`), declared outside the
driver file.  Only the names are used, never their numeric values. -/
inductive LineState where
  | CLEAR_LINE
  | ASSERT_LINE
  | HOLD_LINE
  | PULSE_LINE
  deriving DecidableEq, Repr

/-- Modelled from the spec: the input lines of a processor that the driver
drives: line `0` (the IRQ line of the M6809) and `INPUT_LINE_RESET`. -/
inductive InputLine where
  | INPUT_LINE_IRQ0
  | INPUT_LINE_RESET
  deriving DecidableEq, Repr

/-- Modelled from the spec: a ProcessingUnit, as far as the driver touches it:
interrupt-enable latch, interrupt line 0, reset line. -/
structure CpuState where
  interrupt_enable : Bool
  irq0 : LineState
  reset : LineState
  deriving DecidableEq, Repr

/-- Modelled from the spec: an IOChip slot, as far as the driver touches it:
the reset-asserted flag, the number of pulses applied to the chip's interrupt
input, and the number of those pulses the chip acted on (a chip held in reset
ignores interrupt pulses). -/
structure IoChip where
  reset : Bool
  irq_pulses : Nat
  irq_handled : Nat
  deriving DecidableEq, Repr

/-- The machine state the driver reads and writes: `machine->cpu[0..2]`, the
two namcoio chip slots, the sound-enable gate of the "namco" sound device, the
lamp, coin-lockout and coin-counter outputs, and the two shared RAM arrays
`gaplus_spriteram` and `namco_soundregs`. -/
structure Machine where
  cpu : Nat → CpuState
  namcoio : Nat → IoChip
  sound_enable : Bool
  led : Nat → Bool
  coin_lockout_global : Bool
  coin_counter_in : Nat → Nat
  coin_count : Nat → Nat
  gaplus_spriteram : Nat → Nat
  namco_soundregs : Nat → Nat

/-! ## C operators and core macros -/

/-- The C operator `!x` on an `int`: 1 when `x` is 0, otherwise 0. -/
def lnot (x : Nat) : Nat := if x = 0 then 1 else 0

/-- The C operator `~x` on a 32-bit `int`, as the unsigned 32-bit pattern. -/
def bnot32 (x : Nat) : Nat := (2 ^ 32 - 1 - x % 2 ^ 32) % 2 ^ 32

/-- Modelled from the spec: the core macro `BIT(x,n)`, one bit of an address:
`(x >> n) & 1`. -/
def BIT (x n : Nat) : Nat := (x >>> n) &&& 1

/-! ## Emulator-core primitives called by the driver -/

/-- Modelled from the spec: `cpu_interrupt_enable(cpu, enabled)` of the CPU
executor, which sets the interrupt-enable latch of one processor. -/
def cpu_interrupt_enable (s : Machine) (cpunum : Nat) (enabled : Nat) : Machine :=
  { s with cpu := fun i =>
      if i = cpunum then { s.cpu i with interrupt_enable := decide (enabled ≠ 0) }
      else s.cpu i }

/-- Modelled from the spec: `cpu_set_input_line(cpu, line, state)` of the CPU
executor, which drives one input line (interrupt line or reset line) of one
processor to the given state. -/
def cpu_set_input_line (s : Machine) (cpunum : Nat) (line : InputLine)
    (state : LineState) : Machine :=
  { s with cpu := fun i =>
      if i = cpunum then
        match line with
        | InputLine.INPUT_LINE_IRQ0 => { s.cpu i with irq0 := state }
        | InputLine.INPUT_LINE_RESET => { s.cpu i with reset := state }
      else s.cpu i }

/-- Modelled from the spec: `irq0_line_assert(device)` of the CPU executor:
asserts interrupt line 0 of the processor; the assertion checks the
processor's enable latch, and against a disabled latch it is a no-op (nothing
is queued). -/
def irq0_line_assert (s : Machine) (cpunum : Nat) : Machine :=
  if (s.cpu cpunum).interrupt_enable then
    cpu_set_input_line s cpunum InputLine.INPUT_LINE_IRQ0 LineState.ASSERT_LINE
  else s

/-- Modelled from the spec: `namcoio_set_reset_line(chipnum, state)` of the
I/O chip model: asserts or clears the reset flag of one chip slot. -/
def namcoio_set_reset_line (s : Machine) (chipnum : Nat) (state : LineState) : Machine :=
  { s with namcoio := fun i =>
      if i = chipnum then { s.namcoio i with reset := decide (state = LineState.ASSERT_LINE) }
      else s.namcoio i }

/-- Modelled from the spec: `namcoio_set_irq_line(machine, chipnum, state)` of
the I/O chip model.  A state other than `CLEAR_LINE` is one pulse on the
chip's interrupt input; the chip acts on it only if it is not held in reset.
The interrupt the chip forwards is external to the driver and is only
counted. -/
def namcoio_set_irq_line (s : Machine) (chipnum : Nat) (state : LineState) : Machine :=
  if state = LineState.CLEAR_LINE then s
  else
    { s with namcoio := fun i =>
        if i = chipnum then
          { s.namcoio i with
              irq_pulses := (s.namcoio i).irq_pulses + 1
              irq_handled :=
                if (s.namcoio i).reset then (s.namcoio i).irq_handled
                else (s.namcoio i).irq_handled + 1 }
        else s.namcoio i }

/-- Modelled from the spec: `mappy_sound_enable(device, enable)` of the sound
device: gates the sound-enable signal. -/
def mappy_sound_enable (s : Machine) (enable : Nat) : Machine :=
  { s with sound_enable := decide (enable ≠ 0) }

/-- Modelled from the spec: `set_led_status(num, on)`: sets one lamp output. -/
def set_led_status (s : Machine) (num : Nat) (on_ : Nat) : Machine :=
  { s with led := fun i => if i = num then decide (on_ ≠ 0) else s.led i }

/-- Modelled from the spec: `coin_lockout_global_w(on)`: sets the global
coin-lockout signal. -/
def coin_lockout_global_w (s : Machine) (on_ : Nat) : Machine :=
  { s with coin_lockout_global := decide (on_ ≠ 0) }

/-- Modelled from the spec: `coin_counter_w(num, on)`: drives one coin counter
with `on`; a non-zero value is one coin-counter pulse, which increments the
counter, and zero registers nothing. -/
def coin_counter_w (s : Machine) (num : Nat) (on_ : Nat) : Machine :=
  { s with
      coin_counter_in := fun i => if i = num then on_ else s.coin_counter_in i
      coin_count := fun i =>
        if i = num then (if on_ ≠ 0 then s.coin_count i + 1 else s.coin_count i)
        else s.coin_count i }

/-! ## The driver -/

/-- `WRITE8_HANDLER( out_lamps0 )`: write port 0 of the player/coin chip. -/
def out_lamps0 (s : Machine) (offset data : Nat) : Machine :=
  let s1 := set_led_status s 0 (data &&& 1)
  let s2 := set_led_status s1 1 (data &&& 2)
  let s3 := coin_lockout_global_w s2 (data &&& 4)
  coin_counter_w s3 0 (bnot32 data &&& 8)

/-- `WRITE8_HANDLER( gaplus_irq_1_ctrl_w )`: main CPU irq control. -/
def gaplus_irq_1_ctrl_w (s : Machine) (offset data : Nat) : Machine :=
  let bit := lnot (BIT offset 11)
  let s1 := cpu_interrupt_enable s 0 bit
  if bit = 0 then
    cpu_set_input_line s1 0 InputLine.INPUT_LINE_IRQ0 LineState.CLEAR_LINE
  else s1

/-- `WRITE8_HANDLER( gaplus_irq_3_ctrl_w )`: sound CPU irq control. -/
def gaplus_irq_3_ctrl_w (s : Machine) (offset data : Nat) : Machine :=
  let bit := lnot (BIT offset 13)
  let s1 := cpu_interrupt_enable s 2 bit
  if bit = 0 then
    cpu_set_input_line s1 2 InputLine.INPUT_LINE_IRQ0 LineState.CLEAR_LINE
  else s1

/-- `WRITE8_HANDLER( gaplus_irq_2_ctrl_w )`: sub CPU irq control. -/
def gaplus_irq_2_ctrl_w (s : Machine) (offset data : Nat) : Machine :=
  let bit := offset &&& 1
  let s1 := cpu_interrupt_enable s 1 bit
  if bit = 0 then
    cpu_set_input_line s1 1 InputLine.INPUT_LINE_IRQ0 LineState.CLEAR_LINE
  else s1

/-- `WRITE8_HANDLER( gaplus_sreset_w )`: reset sub and sound CPU, sound
enable. -/
def gaplus_sreset_w (s : Machine) (offset data : Nat) : Machine :=
  let bit := lnot (BIT offset 11)
  let s1 := cpu_set_input_line s 1 InputLine.INPUT_LINE_RESET
    (if bit ≠ 0 then LineState.CLEAR_LINE else LineState.ASSERT_LINE)
  let s2 := cpu_set_input_line s1 2 InputLine.INPUT_LINE_RESET
    (if bit ≠ 0 then LineState.CLEAR_LINE else LineState.ASSERT_LINE)
  mappy_sound_enable s2 bit

/-- `WRITE8_HANDLER( gaplus_freset_w )`: reset the I/O chips.  The `logerror`
diagnostic of the source has no effect on the machine state. -/
def gaplus_freset_w (s : Machine) (offset data : Nat) : Machine :=
  let bit := lnot (BIT offset 11)
  let s1 := namcoio_set_reset_line s 0
    (if bit ≠ 0 then LineState.CLEAR_LINE else LineState.ASSERT_LINE)
  namcoio_set_reset_line s1 1
    (if bit ≠ 0 then LineState.CLEAR_LINE else LineState.ASSERT_LINE)

/-- `MACHINE_RESET( gaplus )`: on reset, VINTON is reset, while the other
flags are not affected. -/
def machine_reset_gaplus (s : Machine) : Machine :=
  let s1 := cpu_interrupt_enable s 1 0
  cpu_set_input_line s1 1 InputLine.INPUT_LINE_IRQ0 LineState.CLEAR_LINE

/-- `INTERRUPT_GEN( gaplus_interrupt_1 )`: the vblank interrupt of the main
CPU (`device` is `cpu[0]`). -/
def gaplus_interrupt_1 (s : Machine) : Machine :=
  let s1 := irq0_line_assert s 0
  let s2 := namcoio_set_irq_line s1 0 LineState.PULSE_LINE
  namcoio_set_irq_line s2 1 LineState.PULSE_LINE

/-- The frame-synchronization event of `MACHINE_DRIVER_START( gaplus )`: the
three `MDRV_CPU_VBLANK_INT` callbacks, in the order the processors are
declared: `gaplus_interrupt_1` for "maincpu", `irq0_line_assert` for "sub"
and for "sub2". -/
def vblank_interrupts (s : Machine) : Machine :=
  irq0_line_assert (irq0_line_assert (gaplus_interrupt_1 s) 1) 2

/-- A machine state used to evaluate the handlers on concrete inputs: all
three processors with interrupts enabled and the interrupt line asserted, the
secondary processors and both I/O chips held in reset, outputs off, RAM
zero. -/
def sample_state : Machine where
  cpu := fun _ => { interrupt_enable := true, irq0 := LineState.ASSERT_LINE,
                    reset := LineState.ASSERT_LINE }
  namcoio := fun _ => { reset := true, irq_pulses := 0, irq_handled := 0 }
  sound_enable := false
  led := fun _ => false
  coin_lockout_global := false
  coin_counter_in := fun _ => 0
  coin_count := fun _ => 0
  gaplus_spriteram := fun _ => 0
  namco_soundregs := fun _ => 0

/-! ## Lamp port 1 and shared RAM handlers -/

/-- `WRITE8_HANDLER( out_lamps1 )`: write port 1 of the player/coin chip. -/
def out_lamps1 (s : Machine) (offset data : Nat) : Machine :=
  coin_counter_w s 1 (bnot32 data &&& 1)

/-- `READ8_HANDLER( gaplus_spriteram_r )`. -/
def gaplus_spriteram_r (s : Machine) (offset : Nat) : Nat :=
  s.gaplus_spriteram offset

/-- `WRITE8_HANDLER( gaplus_spriteram_w )`; the array element is a `UINT8`. -/
def gaplus_spriteram_w (s : Machine) (offset data : Nat) : Machine :=
  { s with gaplus_spriteram := fun i => if i = offset then data % 256 else s.gaplus_spriteram i }

/-- `READ8_HANDLER( gaplus_snd_sharedram_r )`. -/
def gaplus_snd_sharedram_r (s : Machine) (offset : Nat) : Nat :=
  s.namco_soundregs offset

/-- Modelled from the spec: `namco_15xx_w(device, offset, data)` of the sound
device, the write to the sound-register sub-range of the block shared with the
sound processor.  The block is a SharedRegion, whose writes are visible on the
next read: the byte is stored in `namco_soundregs[offset]`.  What the sound
mixer does with the register is outside this model. -/
def namco_15xx_w (s : Machine) (offset data : Nat) : Machine :=
  { s with namco_soundregs := fun i => if i = offset then data % 256 else s.namco_soundregs i }

/-- `WRITE8_DEVICE_HANDLER( gaplus_snd_sharedram_w )`. -/
def gaplus_snd_sharedram_w (s : Machine) (offset data : Nat) : Machine :=
  if offset < 0x40 then
    namco_15xx_w s offset data
  else
    { s with namco_soundregs := fun i => if i = offset then data % 256 else s.namco_soundregs i }

/-! ## Custom I/O initialization -/

/-- The input ports declared in `INPUT_PORTS_START( gaplus )`. -/
inductive PortTag where
  | IN0
  | IN1
  | DSW0
  | DSW1
  | IN2
  deriving DecidableEq, Repr

/-- Modelled from the spec: `input_port_read(machine, tag)`: the logical input
groups are supplied by the host as plain byte-readable sources. -/
def input_port_read (ports : PortTag → Nat) (tag : PortTag) : Nat := ports tag

/-- `READ8_HANDLER( in0_l )`: P1 joystick.  The result is a `UINT8`. -/
def in0_l (ports : PortTag → Nat) (offset : Nat) : Nat :=
  input_port_read ports PortTag.IN0 % 256

/-- `READ8_HANDLER( in0_h )`: P2 joystick. -/
def in0_h (ports : PortTag → Nat) (offset : Nat) : Nat :=
  (input_port_read ports PortTag.IN0 >>> 4) % 256

/-- `READ8_HANDLER( in1_l )`: fire and start buttons. -/
def in1_l (ports : PortTag → Nat) (offset : Nat) : Nat :=
  input_port_read ports PortTag.IN1 % 256

/-- `READ8_HANDLER( in1_h )`: coins. -/
def in1_h (ports : PortTag → Nat) (offset : Nat) : Nat :=
  (input_port_read ports PortTag.IN1 >>> 4) % 256

/-- `READ8_HANDLER( dipA_l )`: dips A. -/
def dipA_l (ports : PortTag → Nat) (offset : Nat) : Nat :=
  input_port_read ports PortTag.DSW0 % 256

/-- `READ8_HANDLER( dipA_h )`: dips A. -/
def dipA_h (ports : PortTag → Nat) (offset : Nat) : Nat :=
  (input_port_read ports PortTag.DSW0 >>> 4) % 256

/-- `READ8_HANDLER( dipB_l )`: dips B. -/
def dipB_l (ports : PortTag → Nat) (offset : Nat) : Nat :=
  input_port_read ports PortTag.DSW1 % 256

/-- `READ8_HANDLER( dipB_h )`: dips B. -/
def dipB_h (ports : PortTag → Nat) (offset : Nat) : Nat :=
  (input_port_read ports PortTag.DSW1 >>> 4) % 256

/-- The port read handlers of the driver, by name (the function pointers stored
in a `namcoio_interface`). -/
inductive PortReadHandler where
  | in0_l
  | in0_h
  | in1_l
  | in1_h
  | dipA_l
  | dipA_h
  | dipB_l
  | dipB_h
  deriving DecidableEq, Repr

/-- The port write handlers of the driver, by name. -/
inductive PortWriteHandler where
  | out_lamps0
  | out_lamps1
  deriving DecidableEq, Repr

/-- Calls the port read handler a name stands for. -/
def PortReadHandler.run (h : PortReadHandler) (ports : PortTag → Nat) (offset : Nat) : Nat :=
  match h with
  | PortReadHandler.in0_l => Gaplus.in0_l ports offset
  | PortReadHandler.in0_h => Gaplus.in0_h ports offset
  | PortReadHandler.in1_l => Gaplus.in1_l ports offset
  | PortReadHandler.in1_h => Gaplus.in1_h ports offset
  | PortReadHandler.dipA_l => Gaplus.dipA_l ports offset
  | PortReadHandler.dipA_h => Gaplus.dipA_h ports offset
  | PortReadHandler.dipB_l => Gaplus.dipB_l ports offset
  | PortReadHandler.dipB_h => Gaplus.dipB_h ports offset

/-- Calls the port write handler a name stands for. -/
def PortWriteHandler.run (h : PortWriteHandler) (s : Machine) (offset data : Nat) : Machine :=
  match h with
  | PortWriteHandler.out_lamps0 => Gaplus.out_lamps0 s offset data
  | PortWriteHandler.out_lamps1 => Gaplus.out_lamps1 s offset data

/-- Modelled from the spec: `struct namcoio_interface`, declared outside the
driver file: 4 port read handlers and 2 port write handlers, `none` for a
`NULL` (unbound) entry. -/
structure namcoio_interface where
  in_ : List (Option PortReadHandler)
  out : List (Option PortWriteHandler)
  deriving DecidableEq, Repr

/-- Modelled from the spec: the chip kinds passed to `namcoio_init`
(`NAMCOIO_56XX`, `NAMCOIO_58XX`), declared outside the driver file;
`NAMCOIO_NONE` is a slot nothing was installed in. -/
inductive NamcoioType where
  | NAMCOIO_NONE
  | NAMCOIO_56XX
  | NAMCOIO_58XX
  deriving DecidableEq, Repr

/-- Chip #0: player inputs, buttons, coins. -/
def intf0 : namcoio_interface where
  in_ := [some PortReadHandler.in1_h, some PortReadHandler.in0_l,
          some PortReadHandler.in0_h, some PortReadHandler.in1_l]
  out := [none, none]

/-- Chip #0 with the lamp and coin outputs bound. -/
def intf0_lamps : namcoio_interface where
  in_ := [some PortReadHandler.in1_h, some PortReadHandler.in0_l,
          some PortReadHandler.in0_h, some PortReadHandler.in1_l]
  out := [some PortWriteHandler.out_lamps0, some PortWriteHandler.out_lamps1]

/-- Chip #1: dip switches. -/
def intf1 : namcoio_interface where
  in_ := [some PortReadHandler.dipA_h, some PortReadHandler.dipB_l,
          some PortReadHandler.dipB_h, some PortReadHandler.dipA_l]
  out := [none, none]

/-- The whole state the driver works on: the control state `Machine`, the input
ports, what `namcoio_init` installed in each chip slot, the arrays the address
map declares with `AM_BASE` besides the two of `Machine`, and the memory
regions "gfx1" and "gfx2". -/
structure GaplusState where
  machine : Machine
  input_port : PortTag → Nat
  namcoio_type : Nat → NamcoioType
  namcoio_intf : Nat → namcoio_interface
  gaplus_videoram : Nat → Nat
  gaplus_customio_3 : Nat → Nat
  gfx1 : Nat → Nat
  gfx2 : Nat → Nat

/-- The first loop of `unpack_gfx` on region "gfx1", after its iterations
`0 .. n-1`: `rom[i + 0x2000] = rom[i] >> 4`. -/
def unpack_gfx1_loop (rom : Nat → Nat) : Nat → Nat → Nat
  | 0 => rom
  | i + 1 => fun a =>
      if a = i + 0x2000 then (unpack_gfx1_loop rom i i >>> 4) % 256
      else unpack_gfx1_loop rom i a

/-- The second loop of `unpack_gfx` on region "gfx2", after its iterations
`0 .. n-1`, with `rom` the region at `+ 0x6000`:
`rom[i + 0x2000] = rom[i] << 4`, stored as a `UINT8`. -/
def unpack_gfx2_loop (region : Nat → Nat) : Nat → Nat → Nat
  | 0 => region
  | i + 1 => fun a =>
      if a = 0x6000 + (i + 0x2000) then (unpack_gfx2_loop region i (0x6000 + i) <<< 4) % 256
      else unpack_gfx2_loop region i a

/-- The function `unpack_gfx` of the driver. -/
def unpack_gfx (g : GaplusState) : GaplusState :=
  { g with
      gfx1 := unpack_gfx1_loop g.gfx1 0x2000
      gfx2 := unpack_gfx2_loop g.gfx2 0x2000 }

/-- Modelled from the spec: `namcoio_init(machine, chipnum, type, intf)` of the
I/O chip model: `configure(slot, kind, read_ports[4], write_ports[2])` binds
the kind and the port handlers of one chip slot. -/
def namcoio_init (g : GaplusState) (chipnum : Nat) (type : NamcoioType)
    (intf : namcoio_interface) : GaplusState :=
  { g with
      namcoio_type := fun i => if i = chipnum then type else g.namcoio_type i
      namcoio_intf := fun i => if i = chipnum then intf else g.namcoio_intf i }

/-- `DRIVER_INIT( 56_58 )`. -/
def driver_init_56_58 (g : GaplusState) : GaplusState :=
  let g1 := unpack_gfx g
  let g2 := namcoio_init g1 0 NamcoioType.NAMCOIO_56XX intf0
  namcoio_init g2 1 NamcoioType.NAMCOIO_58XX intf1

/-- `DRIVER_INIT( 56_58l )`. -/
def driver_init_56_58l (g : GaplusState) : GaplusState :=
  let g1 := unpack_gfx g
  let g2 := namcoio_init g1 0 NamcoioType.NAMCOIO_56XX intf0_lamps
  namcoio_init g2 1 NamcoioType.NAMCOIO_58XX intf1

/-- `DRIVER_INIT( 58_56 )`. -/
def driver_init_58_56 (g : GaplusState) : GaplusState :=
  let g1 := unpack_gfx g
  let g2 := namcoio_init g1 0 NamcoioType.NAMCOIO_58XX intf0
  namcoio_init g2 1 NamcoioType.NAMCOIO_56XX intf1

/-- Modelled from the spec: the port read of the I/O chip model,
`read(slot, port_index)`: dispatches to the read handler bound to the port.
A read port returns a nibble (the low or the high nibble of an input group):
the port is four bits wide and the value read is the low four bits of what the
bound handler returns.  The spec gives no value for the default of an unbound
port nor for the quiescent value of a chip held in reset: the result is `none`
there. -/
def namcoio_read_port (g : GaplusState) (chipnum port : Nat) : Option Nat :=
  if (g.machine.namcoio chipnum).reset then none
  else
    match (g.namcoio_intf chipnum).in_.getD port none with
    | some h => some (h.run g.input_port 0 &&& 0x0F)
    | none => none

/-- The frame event of the main CPU (`gaplus_interrupt_1`) on the whole
state. -/
def frame_interrupt_1 (g : GaplusState) : GaplusState :=
  { g with machine := gaplus_interrupt_1 g.machine }

/-! ## Address maps -/

/-- The read handlers named in the three address maps; `ROM` is `AM_ROM`. -/
inductive ReadHandler where
  | gaplus_videoram_r
  | gaplus_spriteram_r
  | gaplus_snd_sharedram_r
  | gaplus_customio_3_r
  | namcoio_r
  | watchdog_reset_r
  | ROM
  deriving DecidableEq, Repr

/-- The write handlers named in the three address maps. -/
inductive WriteHandler where
  | gaplus_videoram_w
  | gaplus_spriteram_w
  | gaplus_snd_sharedram_w
  | gaplus_customio_3_w
  | namcoio_w
  | gaplus_irq_1_ctrl_w
  | gaplus_sreset_w
  | gaplus_freset_w
  | gaplus_starfield_control_w
  | gaplus_irq_2_ctrl_w
  | watchdog_reset_w
  | gaplus_irq_3_ctrl_w
  deriving DecidableEq, Repr

/-- One `AM_RANGE(start, stop)` line of an address map with its read and write
handler (`none` when the line has none for that direction). -/
structure MapEntry where
  start : Nat
  stop : Nat
  read : Option ReadHandler
  write : Option WriteHandler
  deriving DecidableEq, Repr

/-- `ADDRESS_MAP_START( cpu1_map )`, line by line. -/
def cpu1_map : List MapEntry :=
  [ { start := 0x0000, stop := 0x07ff, read := some ReadHandler.gaplus_videoram_r,
      write := some WriteHandler.gaplus_videoram_w },
    { start := 0x0800, stop := 0x1fff, read := some ReadHandler.gaplus_spriteram_r,
      write := some WriteHandler.gaplus_spriteram_w },
    { start := 0x6000, stop := 0x63ff, read := some ReadHandler.gaplus_snd_sharedram_r,
      write := none },
    { start := 0x6000, stop := 0x63ff, read := none,
      write := some WriteHandler.gaplus_snd_sharedram_w },
    { start := 0x6820, stop := 0x682f, read := some ReadHandler.gaplus_customio_3_r,
      write := some WriteHandler.gaplus_customio_3_w },
    { start := 0x6800, stop := 0x6bff, read := some ReadHandler.namcoio_r,
      write := some WriteHandler.namcoio_w },
    { start := 0x7000, stop := 0x7fff, read := none,
      write := some WriteHandler.gaplus_irq_1_ctrl_w },
    { start := 0x7800, stop := 0x7fff, read := some ReadHandler.watchdog_reset_r,
      write := none },
    { start := 0x8000, stop := 0x8fff, read := none,
      write := some WriteHandler.gaplus_sreset_w },
    { start := 0x9000, stop := 0x9fff, read := none,
      write := some WriteHandler.gaplus_freset_w },
    { start := 0xa000, stop := 0xa7ff, read := none,
      write := some WriteHandler.gaplus_starfield_control_w },
    { start := 0xa000, stop := 0xffff, read := some ReadHandler.ROM, write := none } ]

/-- `ADDRESS_MAP_START( cpu2_map )`, line by line. -/
def cpu2_map : List MapEntry :=
  [ { start := 0x0000, stop := 0x07ff, read := some ReadHandler.gaplus_videoram_r,
      write := some WriteHandler.gaplus_videoram_w },
    { start := 0x0800, stop := 0x1fff, read := some ReadHandler.gaplus_spriteram_r,
      write := some WriteHandler.gaplus_spriteram_w },
    { start := 0x6000, stop := 0x6fff, read := none,
      write := some WriteHandler.gaplus_irq_2_ctrl_w },
    { start := 0xa000, stop := 0xffff, read := some ReadHandler.ROM, write := none } ]

/-- `ADDRESS_MAP_START( cpu3_map )`, line by line. -/
def cpu3_map : List MapEntry :=
  [ { start := 0x0000, stop := 0x03ff, read := some ReadHandler.gaplus_snd_sharedram_r,
      write := none },
    { start := 0x0000, stop := 0x03ff, read := none,
      write := some WriteHandler.gaplus_snd_sharedram_w },
    { start := 0x2000, stop := 0x3fff, read := some ReadHandler.watchdog_reset_r,
      write := some WriteHandler.watchdog_reset_w },
    { start := 0x4000, stop := 0x7fff, read := none,
      write := some WriteHandler.gaplus_irq_3_ctrl_w },
    { start := 0xe000, stop := 0xffff, read := some ReadHandler.ROM, write := none } ]

/-- Modelled from the spec: the address decoder of the memory system for a
read: the access resolves to one target, the first line of the map, in the
order written, whose range holds the address and which has a read handler;
the handler gets the offset from the start of the range. -/
def map_lookup_read : List MapEntry → Nat → Option (ReadHandler × Nat)
  | [], _ => none
  | e :: rest, addr =>
      if e.start ≤ addr ∧ addr ≤ e.stop then
        match e.read with
        | some h => some (h, addr - e.start)
        | none => map_lookup_read rest addr
      else map_lookup_read rest addr

/-- Modelled from the spec: the address decoder of the memory system for a
write, as `map_lookup_read` with the write handlers. -/
def map_lookup_write : List MapEntry → Nat → Option (WriteHandler × Nat)
  | [], _ => none
  | e :: rest, addr =>
      if e.start ≤ addr ∧ addr ≤ e.stop then
        match e.write with
        | some h => some (h, addr - e.start)
        | none => map_lookup_write rest addr
      else map_lookup_write rest addr

/-- The handlers the address maps name that are defined outside the driver
file (video, third I/O chip, namcoio, watchdog, starfield, program ROM).  They
are parameters of the memory access functions. -/
structure Extern where
  gaplus_videoram_r : GaplusState → Nat → Nat
  gaplus_videoram_w : GaplusState → Nat → Nat → GaplusState
  gaplus_customio_3_r : GaplusState → Nat → Nat
  gaplus_customio_3_w : GaplusState → Nat → Nat → GaplusState
  namcoio_r : GaplusState → Nat → Nat
  namcoio_w : GaplusState → Nat → Nat → GaplusState
  watchdog_reset_r : GaplusState → Nat → Nat
  watchdog_reset_w : GaplusState → Nat → Nat → GaplusState
  gaplus_starfield_control_w : GaplusState → Nat → Nat → GaplusState
  rom_r : GaplusState → Nat → Nat

/-- Calls the read handler a name stands for. -/
def ReadHandler.run (x : Extern) (h : ReadHandler) (g : GaplusState) (offset : Nat) : Nat :=
  match h with
  | ReadHandler.gaplus_videoram_r => x.gaplus_videoram_r g offset
  | ReadHandler.gaplus_spriteram_r => Gaplus.gaplus_spriteram_r g.machine offset
  | ReadHandler.gaplus_snd_sharedram_r => Gaplus.gaplus_snd_sharedram_r g.machine offset
  | ReadHandler.gaplus_customio_3_r => x.gaplus_customio_3_r g offset
  | ReadHandler.namcoio_r => x.namcoio_r g offset
  | ReadHandler.watchdog_reset_r => x.watchdog_reset_r g offset
  | ReadHandler.ROM => x.rom_r g offset

/-- Calls the write handler a name stands for. -/
def WriteHandler.run (x : Extern) (h : WriteHandler) (g : GaplusState)
    (offset data : Nat) : GaplusState :=
  match h with
  | WriteHandler.gaplus_videoram_w => x.gaplus_videoram_w g offset data
  | WriteHandler.gaplus_spriteram_w =>
      { g with machine := Gaplus.gaplus_spriteram_w g.machine offset data }
  | WriteHandler.gaplus_snd_sharedram_w =>
      { g with machine := Gaplus.gaplus_snd_sharedram_w g.machine offset data }
  | WriteHandler.gaplus_customio_3_w => x.gaplus_customio_3_w g offset data
  | WriteHandler.namcoio_w => x.namcoio_w g offset data
  | WriteHandler.gaplus_irq_1_ctrl_w =>
      { g with machine := Gaplus.gaplus_irq_1_ctrl_w g.machine offset data }
  | WriteHandler.gaplus_sreset_w =>
      { g with machine := Gaplus.gaplus_sreset_w g.machine offset data }
  | WriteHandler.gaplus_freset_w =>
      { g with machine := Gaplus.gaplus_freset_w g.machine offset data }
  | WriteHandler.gaplus_starfield_control_w => x.gaplus_starfield_control_w g offset data
  | WriteHandler.gaplus_irq_2_ctrl_w =>
      { g with machine := Gaplus.gaplus_irq_2_ctrl_w g.machine offset data }
  | WriteHandler.watchdog_reset_w => x.watchdog_reset_w g offset data
  | WriteHandler.gaplus_irq_3_ctrl_w =>
      { g with machine := Gaplus.gaplus_irq_3_ctrl_w g.machine offset data }

/-- A read of one processor at an address through its map; `none` when no line
of the map resolves the read. -/
def cpu_read (x : Extern) (map : List MapEntry) (g : GaplusState) (addr : Nat) : Option Nat :=
  match map_lookup_read map addr with
  | some (h, offset) => some (h.run x g offset)
  | none => none

/-- A write of one processor at an address through its map; an access no line
of the map resolves leaves the state as it is. -/
def cpu_write (x : Extern) (map : List MapEntry) (g : GaplusState) (addr data : Nat) :
    GaplusState :=
  match map_lookup_write map addr with
  | some (h, offset) => h.run x g offset data
  | none => g

/-! ## Machine configuration -/

/-- `MDRV_QUANTUM_TIME(HZ(6000))`: the scheduling quantum frequency, per
second. -/
def quantum_time_hz : ℚ := 6000

/-- `MDRV_SCREEN_REFRESH_RATE(60.606060)`: frames per second, the decimal
constant of the source as a rational number. -/
def screen_refresh_rate : ℚ := 60606060 / 1000000

/-- Scheduling quanta (interleave points) per video frame. -/
def quanta_per_frame : ℚ := quantum_time_hz / screen_refresh_rate

/-! ## Concrete states for evaluation -/

/-- Input ports of the end-to-end scenario: the player/coin bytes fixed at
0xFE, the dip-switch bytes fixed at 0xC0. -/
def sample_ports : PortTag → Nat
  | PortTag.IN0 => 0xFE
  | PortTag.IN1 => 0xFE
  | PortTag.DSW0 => 0xC0
  | PortTag.DSW1 => 0xC0
  | PortTag.IN2 => 0x0F

/-- A whole state for evaluation: `sample_state` after a write to the I/O reset
window that releases both I/O chips (offset 0), the scenario input ports, no
chip installed yet, all arrays and regions zero. -/
def sample_gaplus : GaplusState where
  machine := gaplus_freset_w sample_state 0 0
  input_port := sample_ports
  namcoio_type := fun _ => NamcoioType.NAMCOIO_NONE
  namcoio_intf := fun _ => { in_ := [], out := [] }
  gaplus_videoram := fun _ => 0
  gaplus_customio_3 := fun _ => 0
  gfx1 := fun _ => 0
  gfx2 := fun _ => 0

/-- External handlers for evaluation: writes that change nothing, reads that
return 0. -/
def sample_extern : Extern where
  gaplus_videoram_r := fun _ _ => 0
  gaplus_videoram_w := fun g _ _ => g
  gaplus_customio_3_r := fun _ _ => 0
  gaplus_customio_3_w := fun g _ _ => g
  namcoio_r := fun _ _ => 0
  namcoio_w := fun g _ _ => g
  watchdog_reset_r := fun _ _ => 0
  watchdog_reset_w := fun g _ _ => g
  gaplus_starfield_control_w := fun g _ _ => g
  rom_r := fun _ _ => 0

/-- A whole state with non-trivial graphics regions for evaluation: byte `a` of
"gfx1" is `a % 256`, byte `a` of "gfx2" is `(3 * a + 5) % 256`. -/
def sample_gfx : GaplusState :=
  { sample_gaplus with
      gfx1 := fun a => a % 256
      gfx2 := fun a => (3 * a + 5) % 256 }

/-! ## Arithmetic of the bit tests -/

theorem BIT_eq_div_mod (x n : Nat) : BIT x n = x / 2 ^ n % 2 := by
  unfold BIT
  rw [Nat.and_one_is_mod, Nat.shiftRight_eq_div_pow]

theorem lnot_BIT_11 (x : Nat) :
    (x / 2048 % 2 = 0 ∧ lnot (BIT x 11) = 1) ∨ (x / 2048 % 2 = 1 ∧ lnot (BIT x 11) = 0) := by
  have e : BIT x 11 = x / 2048 % 2 := by rw [BIT_eq_div_mod]; norm_num
  rw [e]
  unfold lnot
  rcases Nat.mod_two_eq_zero_or_one (x / 2048) with h | h <;> simp [h]

theorem lnot_BIT_13 (x : Nat) :
    (x / 8192 % 2 = 0 ∧ lnot (BIT x 13) = 1) ∨ (x / 8192 % 2 = 1 ∧ lnot (BIT x 13) = 0) := by
  have e : BIT x 13 = x / 8192 % 2 := by rw [BIT_eq_div_mod]; norm_num
  rw [e]
  unfold lnot
  rcases Nat.mod_two_eq_zero_or_one (x / 8192) with h | h <;> simp [h]

theorem and_one_cases (x : Nat) :
    (x % 2 = 0 ∧ x &&& 1 = 0) ∨ (x % 2 = 1 ∧ x &&& 1 = 1) := by
  rw [Nat.and_one_is_mod]
  rcases Nat.mod_two_eq_zero_or_one x with h | h <;> simp [h]

/-! ## Interrupt-control writes -/

/-- C1: for every offset in 0..0xFFF of the main CPU irq-control window
(0x7000-0x7FFF) and every data value, after `gaplus_irq_1_ctrl_w` the latch of
cpu 0 is enabled exactly when bit 11 of the offset is 0, which is exactly the
addresses 0x7000-0x77FF; when bit 11 is 1 (0x7800-0x7FFF) the latch is
disabled and interrupt line 0 of cpu 0 is cleared; when bit 11 is 0 the
interrupt line is left as it was. -/
theorem gaplus_irq_1_ctrl_w_spec (s : Machine) (offset data : Nat) (hoff : offset ≤ 0xFFF) :
    (((gaplus_irq_1_ctrl_w s offset data).cpu 0).interrupt_enable = true
        ↔ offset / 2048 % 2 = 0) ∧
    (offset / 2048 % 2 = 0 ↔ 0x7000 + offset ≤ 0x77FF) ∧
    (offset / 2048 % 2 = 1 ↔ 0x7800 ≤ 0x7000 + offset) ∧
    (offset / 2048 % 2 = 1 →
        ((gaplus_irq_1_ctrl_w s offset data).cpu 0).interrupt_enable = false ∧
        ((gaplus_irq_1_ctrl_w s offset data).cpu 0).irq0 = LineState.CLEAR_LINE) ∧
    (offset / 2048 % 2 = 0 →
        ((gaplus_irq_1_ctrl_w s offset data).cpu 0).irq0 = (s.cpu 0).irq0) := by
  refine ⟨?_, by omega, by omega, ?_, ?_⟩
  · rcases lnot_BIT_11 offset with ⟨h, hb⟩ | ⟨h, hb⟩ <;>
      simp [gaplus_irq_1_ctrl_w, cpu_interrupt_enable, cpu_set_input_line, hb, h]
  · intro h1
    rcases lnot_BIT_11 offset with ⟨h, hb⟩ | ⟨h, hb⟩
    · omega
    · simp [gaplus_irq_1_ctrl_w, cpu_interrupt_enable, cpu_set_input_line, hb]
  · intro h0
    rcases lnot_BIT_11 offset with ⟨h, hb⟩ | ⟨h, hb⟩
    · simp [gaplus_irq_1_ctrl_w, cpu_interrupt_enable, cpu_set_input_line, hb]
    · omega

theorem gaplus_irq_1_ctrl_w_spec_witness :
    0x800 ≤ 0xFFF ∧
    ((((gaplus_irq_1_ctrl_w sample_state 0x800 0x55).cpu 0).interrupt_enable = true
        ↔ 0x800 / 2048 % 2 = 0) ∧
    (0x800 / 2048 % 2 = 0 ↔ 0x7000 + 0x800 ≤ 0x77FF) ∧
    (0x800 / 2048 % 2 = 1 ↔ 0x7800 ≤ 0x7000 + 0x800) ∧
    (0x800 / 2048 % 2 = 1 →
        ((gaplus_irq_1_ctrl_w sample_state 0x800 0x55).cpu 0).interrupt_enable = false ∧
        ((gaplus_irq_1_ctrl_w sample_state 0x800 0x55).cpu 0).irq0 = LineState.CLEAR_LINE) ∧
    (0x800 / 2048 % 2 = 0 →
        ((gaplus_irq_1_ctrl_w sample_state 0x800 0x55).cpu 0).irq0
          = (sample_state.cpu 0).irq0)) :=
  ⟨by decide, gaplus_irq_1_ctrl_w_spec sample_state 0x800 0x55 (by decide)⟩

/-- C2: for every offset of the sub CPU irq-control window (0x6000-0x6FFF)
and every data value, after `gaplus_irq_2_ctrl_w` the latch of cpu 1 is enabled
exactly when bit 0 of the offset is 1; when bit 0 is 0 the latch is disabled
and interrupt line 0 of cpu 1 is cleared; when bit 0 is 1 the interrupt line is
left as it was. -/
theorem gaplus_irq_2_ctrl_w_spec (s : Machine) (offset data : Nat) (hoff : offset ≤ 0xFFF) :
    (((gaplus_irq_2_ctrl_w s offset data).cpu 1).interrupt_enable = true
        ↔ offset % 2 = 1) ∧
    (offset % 2 = 0 →
        ((gaplus_irq_2_ctrl_w s offset data).cpu 1).interrupt_enable = false ∧
        ((gaplus_irq_2_ctrl_w s offset data).cpu 1).irq0 = LineState.CLEAR_LINE) ∧
    (offset % 2 = 1 →
        ((gaplus_irq_2_ctrl_w s offset data).cpu 1).irq0 = (s.cpu 1).irq0) := by
  refine ⟨?_, ?_, ?_⟩
  · rcases and_one_cases offset with ⟨h, hb⟩ | ⟨h, hb⟩ <;>
      simp [gaplus_irq_2_ctrl_w, cpu_interrupt_enable, cpu_set_input_line, hb, h]
  · intro h0
    rcases and_one_cases offset with ⟨h, hb⟩ | ⟨h, hb⟩
    · simp [gaplus_irq_2_ctrl_w, cpu_interrupt_enable, cpu_set_input_line, hb]
    · omega
  · intro h1
    rcases and_one_cases offset with ⟨h, hb⟩ | ⟨h, hb⟩
    · omega
    · simp [gaplus_irq_2_ctrl_w, cpu_interrupt_enable, cpu_set_input_line, hb]

theorem gaplus_irq_2_ctrl_w_spec_witness :
    0x80 ≤ 0xFFF ∧
    ((((gaplus_irq_2_ctrl_w sample_state 0x80 0xFF).cpu 1).interrupt_enable = true
        ↔ 0x80 % 2 = 1) ∧
    (0x80 % 2 = 0 →
        ((gaplus_irq_2_ctrl_w sample_state 0x80 0xFF).cpu 1).interrupt_enable = false ∧
        ((gaplus_irq_2_ctrl_w sample_state 0x80 0xFF).cpu 1).irq0 = LineState.CLEAR_LINE) ∧
    (0x80 % 2 = 1 →
        ((gaplus_irq_2_ctrl_w sample_state 0x80 0xFF).cpu 1).irq0
          = (sample_state.cpu 1).irq0)) :=
  ⟨by decide, gaplus_irq_2_ctrl_w_spec sample_state 0x80 0xFF (by decide)⟩

/-- C3: for every offset in 0..0x3FFF of the sound CPU irq-control window
(0x4000-0x7FFF) and every data value, after `gaplus_irq_3_ctrl_w` the latch of
cpu 2 is enabled exactly when bit 13 of the offset is 0, which is exactly the
addresses 0x4000-0x5FFF; when bit 13 is 1 (0x6000-0x7FFF) the latch is
disabled and interrupt line 0 of cpu 2 is cleared; when bit 13 is 0 the
interrupt line is left as it was. -/
theorem gaplus_irq_3_ctrl_w_spec (s : Machine) (offset data : Nat) (hoff : offset ≤ 0x3FFF) :
    (((gaplus_irq_3_ctrl_w s offset data).cpu 2).interrupt_enable = true
        ↔ offset / 8192 % 2 = 0) ∧
    (offset / 8192 % 2 = 0 ↔ 0x4000 + offset ≤ 0x5FFF) ∧
    (offset / 8192 % 2 = 1 ↔ 0x6000 ≤ 0x4000 + offset) ∧
    (offset / 8192 % 2 = 1 →
        ((gaplus_irq_3_ctrl_w s offset data).cpu 2).interrupt_enable = false ∧
        ((gaplus_irq_3_ctrl_w s offset data).cpu 2).irq0 = LineState.CLEAR_LINE) ∧
    (offset / 8192 % 2 = 0 →
        ((gaplus_irq_3_ctrl_w s offset data).cpu 2).irq0 = (s.cpu 2).irq0) := by
  refine ⟨?_, by omega, by omega, ?_, ?_⟩
  · rcases lnot_BIT_13 offset with ⟨h, hb⟩ | ⟨h, hb⟩ <;>
      simp [gaplus_irq_3_ctrl_w, cpu_interrupt_enable, cpu_set_input_line, hb, h]
  · intro h1
    rcases lnot_BIT_13 offset with ⟨h, hb⟩ | ⟨h, hb⟩
    · omega
    · simp [gaplus_irq_3_ctrl_w, cpu_interrupt_enable, cpu_set_input_line, hb]
  · intro h0
    rcases lnot_BIT_13 offset with ⟨h, hb⟩ | ⟨h, hb⟩
    · simp [gaplus_irq_3_ctrl_w, cpu_interrupt_enable, cpu_set_input_line, hb]
    · omega

theorem gaplus_irq_3_ctrl_w_spec_witness :
    0x2000 ≤ 0x3FFF ∧
    ((((gaplus_irq_3_ctrl_w sample_state 0x2000 0).cpu 2).interrupt_enable = true
        ↔ 0x2000 / 8192 % 2 = 0) ∧
    (0x2000 / 8192 % 2 = 0 ↔ 0x4000 + 0x2000 ≤ 0x5FFF) ∧
    (0x2000 / 8192 % 2 = 1 ↔ 0x6000 ≤ 0x4000 + 0x2000) ∧
    (0x2000 / 8192 % 2 = 1 →
        ((gaplus_irq_3_ctrl_w sample_state 0x2000 0).cpu 2).interrupt_enable = false ∧
        ((gaplus_irq_3_ctrl_w sample_state 0x2000 0).cpu 2).irq0 = LineState.CLEAR_LINE) ∧
    (0x2000 / 8192 % 2 = 0 →
        ((gaplus_irq_3_ctrl_w sample_state 0x2000 0).cpu 2).irq0
          = (sample_state.cpu 2).irq0)) :=
  ⟨by decide, gaplus_irq_3_ctrl_w_spec sample_state 0x2000 0 (by decide)⟩

/-- C4: each of the three interrupt-control write handlers gives the same
resulting machine state for any two data values written at the same offset,
from any starting state. -/
theorem irq_ctrl_w_data_independent (s : Machine) (offset d1 d2 : Nat) :
    gaplus_irq_1_ctrl_w s offset d1 = gaplus_irq_1_ctrl_w s offset d2 ∧
    gaplus_irq_2_ctrl_w s offset d1 = gaplus_irq_2_ctrl_w s offset d2 ∧
    gaplus_irq_3_ctrl_w s offset d1 = gaplus_irq_3_ctrl_w s offset d2 :=
  ⟨rfl, rfl, rfl⟩

/-! ## Reset control writes -/

/-- C5: for every offset and data value, after `gaplus_sreset_w` the reset
lines of cpu 1 (sub) and cpu 2 (sound) are in the same state and sound-enable
agrees with them: bit 11 of the offset set gives both reset lines asserted and
sound-enable false, bit 11 clear gives both reset lines cleared and
sound-enable true. -/
theorem gaplus_sreset_w_spec (s : Machine) (offset data : Nat) (hoff : offset ≤ 0xFFF) :
    ((gaplus_sreset_w s offset data).cpu 1).reset
        = ((gaplus_sreset_w s offset data).cpu 2).reset ∧
    (offset / 2048 % 2 = 1 →
        ((gaplus_sreset_w s offset data).cpu 1).reset = LineState.ASSERT_LINE ∧
        ((gaplus_sreset_w s offset data).cpu 2).reset = LineState.ASSERT_LINE ∧
        (gaplus_sreset_w s offset data).sound_enable = false) ∧
    (offset / 2048 % 2 = 0 →
        ((gaplus_sreset_w s offset data).cpu 1).reset = LineState.CLEAR_LINE ∧
        ((gaplus_sreset_w s offset data).cpu 2).reset = LineState.CLEAR_LINE ∧
        (gaplus_sreset_w s offset data).sound_enable = true) := by
  rcases lnot_BIT_11 offset with ⟨h, hb⟩ | ⟨h, hb⟩ <;>
    simp [gaplus_sreset_w, cpu_set_input_line, mappy_sound_enable, hb, h]

theorem gaplus_sreset_w_spec_witness :
    0x800 ≤ 0xFFF ∧
    (((gaplus_sreset_w sample_state 0x800 0).cpu 1).reset
        = ((gaplus_sreset_w sample_state 0x800 0).cpu 2).reset ∧
    (0x800 / 2048 % 2 = 1 →
        ((gaplus_sreset_w sample_state 0x800 0).cpu 1).reset = LineState.ASSERT_LINE ∧
        ((gaplus_sreset_w sample_state 0x800 0).cpu 2).reset = LineState.ASSERT_LINE ∧
        (gaplus_sreset_w sample_state 0x800 0).sound_enable = false) ∧
    (0x800 / 2048 % 2 = 0 →
        ((gaplus_sreset_w sample_state 0x800 0).cpu 1).reset = LineState.CLEAR_LINE ∧
        ((gaplus_sreset_w sample_state 0x800 0).cpu 2).reset = LineState.CLEAR_LINE ∧
        (gaplus_sreset_w sample_state 0x800 0).sound_enable = true)) :=
  ⟨by decide, gaplus_sreset_w_spec sample_state 0x800 0 (by decide)⟩

/-- C6: for every offset and data value, after `gaplus_freset_w` the reset
flags of I/O chip slot 0 and slot 1 are in the same state: both asserted when
bit 11 of the offset is 1, both cleared when bit 11 is 0. -/
theorem gaplus_freset_w_spec (s : Machine) (offset data : Nat) (hoff : offset ≤ 0xFFF) :
    ((gaplus_freset_w s offset data).namcoio 0).reset
        = ((gaplus_freset_w s offset data).namcoio 1).reset ∧
    (offset / 2048 % 2 = 1 →
        ((gaplus_freset_w s offset data).namcoio 0).reset = true ∧
        ((gaplus_freset_w s offset data).namcoio 1).reset = true) ∧
    (offset / 2048 % 2 = 0 →
        ((gaplus_freset_w s offset data).namcoio 0).reset = false ∧
        ((gaplus_freset_w s offset data).namcoio 1).reset = false) := by
  rcases lnot_BIT_11 offset with ⟨h, hb⟩ | ⟨h, hb⟩ <;>
    simp [gaplus_freset_w, namcoio_set_reset_line, hb, h]

theorem gaplus_freset_w_spec_witness :
    0x7FF ≤ 0xFFF ∧
    (((gaplus_freset_w sample_state 0x7FF 0).namcoio 0).reset
        = ((gaplus_freset_w sample_state 0x7FF 0).namcoio 1).reset ∧
    (0x7FF / 2048 % 2 = 1 →
        ((gaplus_freset_w sample_state 0x7FF 0).namcoio 0).reset = true ∧
        ((gaplus_freset_w sample_state 0x7FF 0).namcoio 1).reset = true) ∧
    (0x7FF / 2048 % 2 = 0 →
        ((gaplus_freset_w sample_state 0x7FF 0).namcoio 0).reset = false ∧
        ((gaplus_freset_w sample_state 0x7FF 0).namcoio 1).reset = false)) :=
  ⟨by decide, gaplus_freset_w_spec sample_state 0x7FF 0 (by decide)⟩

/-- C7: from every machine state, `MACHINE_RESET( gaplus )` leaves the
interrupt-enable latch of cpu 1 (sub) disabled and its interrupt line cleared,
and leaves the interrupt-enable latches of cpu 0 (main) and cpu 2 (sound) as
they were before the reset. -/
theorem machine_reset_gaplus_spec (s : Machine) :
    ((machine_reset_gaplus s).cpu 1).interrupt_enable = false ∧
    ((machine_reset_gaplus s).cpu 1).irq0 = LineState.CLEAR_LINE ∧
    ((machine_reset_gaplus s).cpu 0).interrupt_enable = (s.cpu 0).interrupt_enable ∧
    ((machine_reset_gaplus s).cpu 2).interrupt_enable = (s.cpu 2).interrupt_enable := by
  simp [machine_reset_gaplus, cpu_interrupt_enable, cpu_set_input_line]

/-! ## Frame interrupt -/

/-- C8: from every machine state, `gaplus_interrupt_1` asserts interrupt line 0
of cpu 0 when the interrupt-enable latch of cpu 0 is enabled and leaves that
line unchanged when the latch is disabled; in both cases the interrupt input
of I/O chip slot 0 and of I/O chip slot 1 receives exactly one pulse. -/
theorem gaplus_interrupt_1_spec (s : Machine) :
    ((s.cpu 0).interrupt_enable = true →
        ((gaplus_interrupt_1 s).cpu 0).irq0 = LineState.ASSERT_LINE) ∧
    ((s.cpu 0).interrupt_enable = false →
        ((gaplus_interrupt_1 s).cpu 0).irq0 = (s.cpu 0).irq0) ∧
    ((gaplus_interrupt_1 s).namcoio 0).irq_pulses = (s.namcoio 0).irq_pulses + 1 ∧
    ((gaplus_interrupt_1 s).namcoio 1).irq_pulses = (s.namcoio 1).irq_pulses + 1 := by
  refine ⟨?_, ?_, ?_, ?_⟩
  · intro h
    simp [gaplus_interrupt_1, irq0_line_assert, namcoio_set_irq_line, cpu_set_input_line, h]
  · intro h
    simp [gaplus_interrupt_1, irq0_line_assert, namcoio_set_irq_line, h]
  · cases h : (s.cpu 0).interrupt_enable <;>
      simp [gaplus_interrupt_1, irq0_line_assert, namcoio_set_irq_line, cpu_set_input_line, h]
  · cases h : (s.cpu 0).interrupt_enable <;>
      simp [gaplus_interrupt_1, irq0_line_assert, namcoio_set_irq_line, cpu_set_input_line, h]

/-- C9: for each of the three processors and every starting state, after a
write to its irq-control window with the disabling address bit, then one frame
event (the three vblank interrupt callbacks), then a write with the enabling
address bit, interrupt line 0 of that processor is clear, both right after the
frame event and after the re-enabling write, and the latch is enabled again. -/
theorem disabled_frame_interrupt_not_delivered (s : Machine)
    (a1 b1 a2 b2 a3 b3 d e : Nat)
    (ha1 : a1 / 2048 % 2 = 1) (hb1 : b1 / 2048 % 2 = 0)
    (ha2 : a2 % 2 = 0) (hb2 : b2 % 2 = 1)
    (ha3 : a3 / 8192 % 2 = 1) (hb3 : b3 / 8192 % 2 = 0) :
    (((vblank_interrupts (gaplus_irq_1_ctrl_w s a1 d)).cpu 0).irq0 = LineState.CLEAR_LINE ∧
     ((gaplus_irq_1_ctrl_w (vblank_interrupts (gaplus_irq_1_ctrl_w s a1 d)) b1 e).cpu 0).irq0
        = LineState.CLEAR_LINE ∧
     ((gaplus_irq_1_ctrl_w (vblank_interrupts (gaplus_irq_1_ctrl_w s a1 d)) b1 e).cpu 0
        ).interrupt_enable = true) ∧
    (((vblank_interrupts (gaplus_irq_2_ctrl_w s a2 d)).cpu 1).irq0 = LineState.CLEAR_LINE ∧
     ((gaplus_irq_2_ctrl_w (vblank_interrupts (gaplus_irq_2_ctrl_w s a2 d)) b2 e).cpu 1).irq0
        = LineState.CLEAR_LINE ∧
     ((gaplus_irq_2_ctrl_w (vblank_interrupts (gaplus_irq_2_ctrl_w s a2 d)) b2 e).cpu 1
        ).interrupt_enable = true) ∧
    (((vblank_interrupts (gaplus_irq_3_ctrl_w s a3 d)).cpu 2).irq0 = LineState.CLEAR_LINE ∧
     ((gaplus_irq_3_ctrl_w (vblank_interrupts (gaplus_irq_3_ctrl_w s a3 d)) b3 e).cpu 2).irq0
        = LineState.CLEAR_LINE ∧
     ((gaplus_irq_3_ctrl_w (vblank_interrupts (gaplus_irq_3_ctrl_w s a3 d)) b3 e).cpu 2
        ).interrupt_enable = true) := by
  have A1 : lnot (BIT a1 11) = 0 := by rcases lnot_BIT_11 a1 with ⟨h, _⟩ | ⟨_, h⟩ <;> omega
  have B1 : lnot (BIT b1 11) = 1 := by rcases lnot_BIT_11 b1 with ⟨_, h⟩ | ⟨h, _⟩ <;> omega
  have A2 : a2 &&& 1 = 0 := by rcases and_one_cases a2 with ⟨_, h⟩ | ⟨h, _⟩ <;> omega
  have B2 : b2 &&& 1 = 1 := by rcases and_one_cases b2 with ⟨h, _⟩ | ⟨_, h⟩ <;> omega
  have A3 : lnot (BIT a3 13) = 0 := by rcases lnot_BIT_13 a3 with ⟨h, _⟩ | ⟨_, h⟩ <;> omega
  have B3 : lnot (BIT b3 13) = 1 := by rcases lnot_BIT_13 b3 with ⟨_, h⟩ | ⟨h, _⟩ <;> omega
  refine ⟨?_, ?_, ?_⟩
  · cases h1 : (s.cpu 1).interrupt_enable <;> cases h2 : (s.cpu 2).interrupt_enable <;>
      simp [vblank_interrupts, gaplus_interrupt_1, irq0_line_assert, namcoio_set_irq_line,
        gaplus_irq_1_ctrl_w, cpu_interrupt_enable, cpu_set_input_line, A1, B1, h1, h2]
  · cases h1 : (s.cpu 0).interrupt_enable <;> cases h2 : (s.cpu 2).interrupt_enable <;>
      simp [vblank_interrupts, gaplus_interrupt_1, irq0_line_assert, namcoio_set_irq_line,
        gaplus_irq_2_ctrl_w, cpu_interrupt_enable, cpu_set_input_line, A2, B2, h1, h2]
  · cases h1 : (s.cpu 0).interrupt_enable <;> cases h2 : (s.cpu 1).interrupt_enable <;>
      simp [vblank_interrupts, gaplus_interrupt_1, irq0_line_assert, namcoio_set_irq_line,
        gaplus_irq_3_ctrl_w, cpu_interrupt_enable, cpu_set_input_line, A3, B3, h1, h2]

theorem disabled_frame_interrupt_not_delivered_witness :
    (0x820 / 2048 % 2 = 1 ∧ 0x400 / 2048 % 2 = 0 ∧ 0x80 % 2 = 0 ∧ 0x81 % 2 = 1 ∧
     0x2000 / 8192 % 2 = 1 ∧ 0 / 8192 % 2 = 0) ∧
    ((((vblank_interrupts (gaplus_irq_1_ctrl_w sample_state 0x820 0)).cpu 0).irq0
        = LineState.CLEAR_LINE ∧
     ((gaplus_irq_1_ctrl_w (vblank_interrupts (gaplus_irq_1_ctrl_w sample_state 0x820 0))
        0x400 0xFF).cpu 0).irq0 = LineState.CLEAR_LINE ∧
     ((gaplus_irq_1_ctrl_w (vblank_interrupts (gaplus_irq_1_ctrl_w sample_state 0x820 0))
        0x400 0xFF).cpu 0).interrupt_enable = true) ∧
    (((vblank_interrupts (gaplus_irq_2_ctrl_w sample_state 0x80 0)).cpu 1).irq0
        = LineState.CLEAR_LINE ∧
     ((gaplus_irq_2_ctrl_w (vblank_interrupts (gaplus_irq_2_ctrl_w sample_state 0x80 0))
        0x81 0xFF).cpu 1).irq0 = LineState.CLEAR_LINE ∧
     ((gaplus_irq_2_ctrl_w (vblank_interrupts (gaplus_irq_2_ctrl_w sample_state 0x80 0))
        0x81 0xFF).cpu 1).interrupt_enable = true) ∧
    (((vblank_interrupts (gaplus_irq_3_ctrl_w sample_state 0x2000 0)).cpu 2).irq0
        = LineState.CLEAR_LINE ∧
     ((gaplus_irq_3_ctrl_w (vblank_interrupts (gaplus_irq_3_ctrl_w sample_state 0x2000 0))
        0 0xFF).cpu 2).irq0 = LineState.CLEAR_LINE ∧
     ((gaplus_irq_3_ctrl_w (vblank_interrupts (gaplus_irq_3_ctrl_w sample_state 0x2000 0))
        0 0xFF).cpu 2).interrupt_enable = true)) :=
  ⟨by decide,
   disabled_frame_interrupt_not_delivered sample_state 0x820 0x400 0x80 0x81 0x2000 0 0 0xFF
     (by decide) (by decide) (by decide) (by decide) (by decide) (by decide)⟩

/-! ## Lamp and coin outputs -/

theorem bnot32_and_8 : ∀ d, d < 256 →
    bnot32 d &&& 8 = if d / 8 % 2 = 0 then 8 else 0 := by
  intro d hd
  interval_cases d <;> rfl

/-- C10: for every data byte written through `out_lamps0`: when bit 3 of the
data is 0, coin counter 0 is driven with a non-zero value and registers exactly
one pulse (its count goes up by one); when bit 3 is 1, coin counter 0 is driven
with 0 and registers none (its count is unchanged). -/
theorem out_lamps0_coin_counter (s : Machine) (offset data : Nat) (hdata : data < 256) :
    (data / 8 % 2 = 0 →
        (out_lamps0 s offset data).coin_counter_in 0 ≠ 0 ∧
        (out_lamps0 s offset data).coin_count 0 = s.coin_count 0 + 1) ∧
    (data / 8 % 2 = 1 →
        (out_lamps0 s offset data).coin_counter_in 0 = 0 ∧
        (out_lamps0 s offset data).coin_count 0 = s.coin_count 0) := by
  have hb := bnot32_and_8 data hdata
  constructor
  · intro h
    rw [if_pos h] at hb
    simp [out_lamps0, coin_counter_w, coin_lockout_global_w, set_led_status, hb]
  · intro h
    rw [if_neg (by omega)] at hb
    simp [out_lamps0, coin_counter_w, coin_lockout_global_w, set_led_status, hb]

theorem out_lamps0_coin_counter_witness :
    0xF7 < 256 ∧
    ((0xF7 / 8 % 2 = 0 →
        (out_lamps0 sample_state 0 0xF7).coin_counter_in 0 ≠ 0 ∧
        (out_lamps0 sample_state 0 0xF7).coin_count 0 = sample_state.coin_count 0 + 1) ∧
    (0xF7 / 8 % 2 = 1 →
        (out_lamps0 sample_state 0 0xF7).coin_counter_in 0 = 0 ∧
        (out_lamps0 sample_state 0 0xF7).coin_count 0 = sample_state.coin_count 0)) :=
  ⟨by decide, out_lamps0_coin_counter sample_state 0 0xF7 (by decide)⟩

theorem land_byte_bits : ∀ d, d < 256 →
    (d &&& 1 = if d % 2 = 1 then 1 else 0) ∧
    (d &&& 2 = if d / 2 % 2 = 1 then 2 else 0) ∧
    (d &&& 4 = if d / 4 % 2 = 1 then 4 else 0) := by
  intro d hd
  interval_cases d <;> exact ⟨rfl, rfl, rfl⟩

theorem bnot32_and_1 : ∀ d, d < 256 →
    bnot32 d &&& 1 = if d % 2 = 0 then 1 else 0 := by
  intro d hd
  interval_cases d <;> rfl

/-- C11: for every data byte written through `out_lamps0`: lamp 0 is on
exactly when bit 0 of the data is set, lamp 1 exactly when bit 1 is set, the
global coin lockout exactly when bit 2 is set; and two data bytes that agree on
bits 0-3 give the same resulting state, so the four outputs of the port depend
only on bits 0-3. -/
theorem out_lamps0_lamps_lockout (s : Machine) (offset data : Nat) (hdata : data < 256) :
    ((out_lamps0 s offset data).led 0 = true ↔ data % 2 = 1) ∧
    ((out_lamps0 s offset data).led 1 = true ↔ data / 2 % 2 = 1) ∧
    ((out_lamps0 s offset data).coin_lockout_global = true ↔ data / 4 % 2 = 1) ∧
    (∀ d2, d2 < 256 → d2 % 16 = data % 16 →
        out_lamps0 s offset d2 = out_lamps0 s offset data) := by
  obtain ⟨h1, h2, h4⟩ := land_byte_bits data hdata
  refine ⟨?_, ?_, ?_, ?_⟩
  · by_cases h : data % 2 = 1 <;>
      simp [out_lamps0, coin_counter_w, coin_lockout_global_w, set_led_status, h1, h]
  · by_cases h : data / 2 % 2 = 1 <;>
      simp [out_lamps0, coin_counter_w, coin_lockout_global_w, set_led_status, h2, h]
  · by_cases h : data / 4 % 2 = 1 <;>
      simp [out_lamps0, coin_counter_w, coin_lockout_global_w, set_led_status, h4, h]
  · intro d2 hd2 hlow
    obtain ⟨k1, k2, k4⟩ := land_byte_bits d2 hd2
    have k8 := bnot32_and_8 d2 hd2
    have h8 := bnot32_and_8 data hdata
    have e1 : d2 &&& 1 = data &&& 1 := by
      rw [k1, h1]; have : d2 % 2 = data % 2 := by omega
      rw [this]
    have e2 : d2 &&& 2 = data &&& 2 := by
      rw [k2, h2]; have : d2 / 2 % 2 = data / 2 % 2 := by omega
      rw [this]
    have e4 : d2 &&& 4 = data &&& 4 := by
      rw [k4, h4]; have : d2 / 4 % 2 = data / 4 % 2 := by omega
      rw [this]
    have e8 : bnot32 d2 &&& 8 = bnot32 data &&& 8 := by
      rw [k8, h8]; have : d2 / 8 % 2 = data / 8 % 2 := by omega
      rw [this]
    simp only [out_lamps0, e1, e2, e4, e8]

theorem out_lamps0_lamps_lockout_witness :
    0x35 < 256 ∧
    (((out_lamps0 sample_state 0 0x35).led 0 = true ↔ 0x35 % 2 = 1) ∧
    ((out_lamps0 sample_state 0 0x35).led 1 = true ↔ 0x35 / 2 % 2 = 1) ∧
    ((out_lamps0 sample_state 0 0x35).coin_lockout_global = true ↔ 0x35 / 4 % 2 = 1) ∧
    (∀ d2, d2 < 256 → d2 % 16 = 0x35 % 16 →
        out_lamps0 sample_state 0 d2 = out_lamps0 sample_state 0 0x35)) :=
  ⟨by decide, out_lamps0_lamps_lockout sample_state 0 0x35 (by decide)⟩

/-- C12: for every data byte written through `out_lamps1`: coin counter 1 is
driven with a non-zero value exactly when bit 0 of the data is clear and with 0
when bit 0 is set; two data bytes that agree on bit 0 give the same resulting
state; and the write leaves the lamps, the coin lockout and coin counter 0 as
they were. -/
theorem out_lamps1_spec (s : Machine) (offset data : Nat) (hdata : data < 256) :
    ((out_lamps1 s offset data).coin_counter_in 1 ≠ 0 ↔ data % 2 = 0) ∧
    (data % 2 = 1 → (out_lamps1 s offset data).coin_counter_in 1 = 0) ∧
    (∀ d2, d2 < 256 → d2 % 2 = data % 2 →
        out_lamps1 s offset d2 = out_lamps1 s offset data) ∧
    (out_lamps1 s offset data).led = s.led ∧
    (out_lamps1 s offset data).coin_lockout_global = s.coin_lockout_global ∧
    (out_lamps1 s offset data).coin_counter_in 0 = s.coin_counter_in 0 ∧
    (out_lamps1 s offset data).coin_count 0 = s.coin_count 0 := by
  have h1 := bnot32_and_1 data hdata
  refine ⟨?_, ?_, ?_, rfl, rfl, ?_, ?_⟩
  · by_cases h : data % 2 = 0 <;> simp [out_lamps1, coin_counter_w, h1, h]
  · intro h
    have h0 : ¬ data % 2 = 0 := by omega
    simp [out_lamps1, coin_counter_w, h1, h0]
  · intro d2 hd2 hbit
    have k1 := bnot32_and_1 d2 hd2
    have e1 : bnot32 d2 &&& 1 = bnot32 data &&& 1 := by rw [k1, h1, hbit]
    simp only [out_lamps1, e1]
  · simp [out_lamps1, coin_counter_w]
  · simp [out_lamps1, coin_counter_w]

theorem out_lamps1_spec_witness :
    0xFE < 256 ∧
    (((out_lamps1 sample_state 0 0xFE).coin_counter_in 1 ≠ 0 ↔ 0xFE % 2 = 0) ∧
    (0xFE % 2 = 1 → (out_lamps1 sample_state 0 0xFE).coin_counter_in 1 = 0) ∧
    (∀ d2, d2 < 256 → d2 % 2 = 0xFE % 2 →
        out_lamps1 sample_state 0 d2 = out_lamps1 sample_state 0 0xFE) ∧
    (out_lamps1 sample_state 0 0xFE).led = sample_state.led ∧
    (out_lamps1 sample_state 0 0xFE).coin_lockout_global = sample_state.coin_lockout_global ∧
    (out_lamps1 sample_state 0 0xFE).coin_counter_in 0 = sample_state.coin_counter_in 0 ∧
    (out_lamps1 sample_state 0 0xFE).coin_count 0 = sample_state.coin_count 0) :=
  ⟨by decide, out_lamps1_spec sample_state 0 0xFE (by decide)⟩

/-! ## Port read handlers -/

/-- C13, as stated, fails: with the joystick byte IN0 = 0xFE the handler
`in0_l` returns 0xFE, which is neither in 0..15 nor the low nibble 0x0E. -/
theorem in0_l_returns_whole_byte :
    sample_ports PortTag.IN0 = 0xFE ∧
    in0_l sample_ports 0 = 0xFE ∧
    ¬ (in0_l sample_ports 0 ≤ 15) ∧
    ¬ (in0_l sample_ports 0 = sample_ports PortTag.IN0 &&& 0x0F) := by
  decide

/-- C13, amended: for every value 0..255 of the four input bytes, each
high-nibble handler (`in0_h`, `in1_h`, `dipA_h`, `dipB_h`) returns its input
byte shifted right by 4, a value in 0..15; each low-nibble handler (`in0_l`,
`in1_l`, `dipA_l`, `dipB_l`) returns its whole input byte, whose low four bits
are the low nibble of the byte. -/
theorem port_read_handlers_spec (ports : PortTag → Nat) (offset : Nat)
    (hports : ∀ tag, ports tag < 256) :
    (in0_h ports offset = ports PortTag.IN0 >>> 4 ∧ in0_h ports offset ≤ 15) ∧
    (in1_h ports offset = ports PortTag.IN1 >>> 4 ∧ in1_h ports offset ≤ 15) ∧
    (dipA_h ports offset = ports PortTag.DSW0 >>> 4 ∧ dipA_h ports offset ≤ 15) ∧
    (dipB_h ports offset = ports PortTag.DSW1 >>> 4 ∧ dipB_h ports offset ≤ 15) ∧
    (in0_l ports offset = ports PortTag.IN0 ∧
      in0_l ports offset &&& 0x0F = ports PortTag.IN0 &&& 0x0F) ∧
    (in1_l ports offset = ports PortTag.IN1 ∧
      in1_l ports offset &&& 0x0F = ports PortTag.IN1 &&& 0x0F) ∧
    (dipA_l ports offset = ports PortTag.DSW0 ∧
      dipA_l ports offset &&& 0x0F = ports PortTag.DSW0 &&& 0x0F) ∧
    (dipB_l ports offset = ports PortTag.DSW1 ∧
      dipB_l ports offset &&& 0x0F = ports PortTag.DSW1 &&& 0x0F) := by
  have hi : ∀ tag, (ports tag >>> 4) % 256 = ports tag >>> 4 ∧ ports tag >>> 4 ≤ 15 := by
    intro tag
    have := hports tag
    rw [Nat.shiftRight_eq_div_pow]
    omega
  have lo : ∀ tag, ports tag % 256 = ports tag := fun tag => Nat.mod_eq_of_lt (hports tag)
  simp only [in0_h, in1_h, dipA_h, dipB_h, in0_l, in1_l, dipA_l, dipB_l, input_port_read]
  refine ⟨?_, ?_, ?_, ?_, ?_, ?_, ?_, ?_⟩
  · rw [(hi PortTag.IN0).1]; exact ⟨rfl, (hi PortTag.IN0).2⟩
  · rw [(hi PortTag.IN1).1]; exact ⟨rfl, (hi PortTag.IN1).2⟩
  · rw [(hi PortTag.DSW0).1]; exact ⟨rfl, (hi PortTag.DSW0).2⟩
  · rw [(hi PortTag.DSW1).1]; exact ⟨rfl, (hi PortTag.DSW1).2⟩
  · rw [lo PortTag.IN0]; exact ⟨rfl, rfl⟩
  · rw [lo PortTag.IN1]; exact ⟨rfl, rfl⟩
  · rw [lo PortTag.DSW0]; exact ⟨rfl, rfl⟩
  · rw [lo PortTag.DSW1]; exact ⟨rfl, rfl⟩

theorem port_read_handlers_spec_witness :
    (∀ tag, sample_ports tag < 256) ∧
    ((in0_h sample_ports 0 = sample_ports PortTag.IN0 >>> 4 ∧ in0_h sample_ports 0 ≤ 15) ∧
    (in1_h sample_ports 0 = sample_ports PortTag.IN1 >>> 4 ∧ in1_h sample_ports 0 ≤ 15) ∧
    (dipA_h sample_ports 0 = sample_ports PortTag.DSW0 >>> 4 ∧ dipA_h sample_ports 0 ≤ 15) ∧
    (dipB_h sample_ports 0 = sample_ports PortTag.DSW1 >>> 4 ∧ dipB_h sample_ports 0 ≤ 15) ∧
    (in0_l sample_ports 0 = sample_ports PortTag.IN0 ∧
      in0_l sample_ports 0 &&& 0x0F = sample_ports PortTag.IN0 &&& 0x0F) ∧
    (in1_l sample_ports 0 = sample_ports PortTag.IN1 ∧
      in1_l sample_ports 0 &&& 0x0F = sample_ports PortTag.IN1 &&& 0x0F) ∧
    (dipA_l sample_ports 0 = sample_ports PortTag.DSW0 ∧
      dipA_l sample_ports 0 &&& 0x0F = sample_ports PortTag.DSW0 &&& 0x0F) ∧
    (dipB_l sample_ports 0 = sample_ports PortTag.DSW1 ∧
      dipB_l sample_ports 0 &&& 0x0F = sample_ports PortTag.DSW1 &&& 0x0F)) :=
  ⟨fun tag => by cases tag <;> decide,
   port_read_handlers_spec sample_ports 0 (fun tag => by cases tag <;> decide)⟩

/-! ## I/O chip configuration -/

/-- C14: end-to-end scenario.  With slot 0 configured as the player/coin chip
(`intf0`) and slot 1 as the dip-switch chip (`intf1`) by `DRIVER_INIT( 56_58 )`,
the player/coin input bytes fixed at 0xFE and the dip-switch bytes at 0xC0, and
slot 0 released from reset (a chip held in reset ignores the pulse): after one
frame event (`gaplus_interrupt_1`) the interrupt input of slot 0 has received
one pulse, which the chip acted on, and a read of read port 1 of slot 0 returns
0x0E, which is the low nibble of the button/coin byte. -/
theorem end_to_end_scenario (g : GaplusState)
    (hin0 : g.input_port PortTag.IN0 = 0xFE) (hin1 : g.input_port PortTag.IN1 = 0xFE)
    (hdsw0 : g.input_port PortTag.DSW0 = 0xC0) (hdsw1 : g.input_port PortTag.DSW1 = 0xC0)
    (hreset : (g.machine.namcoio 0).reset = false) :
    (frame_interrupt_1 (driver_init_56_58 g)).namcoio_type 0 = NamcoioType.NAMCOIO_56XX ∧
    (frame_interrupt_1 (driver_init_56_58 g)).namcoio_intf 0 = intf0 ∧
    (frame_interrupt_1 (driver_init_56_58 g)).namcoio_type 1 = NamcoioType.NAMCOIO_58XX ∧
    (frame_interrupt_1 (driver_init_56_58 g)).namcoio_intf 1 = intf1 ∧
    ((frame_interrupt_1 (driver_init_56_58 g)).machine.namcoio 0).irq_pulses
      = (g.machine.namcoio 0).irq_pulses + 1 ∧
    ((frame_interrupt_1 (driver_init_56_58 g)).machine.namcoio 0).irq_handled
      = (g.machine.namcoio 0).irq_handled + 1 ∧
    namcoio_read_port (frame_interrupt_1 (driver_init_56_58 g)) 0 1 = some 0x0E ∧
    namcoio_read_port (frame_interrupt_1 (driver_init_56_58 g)) 0 1
      = some (g.input_port PortTag.IN1 &&& 0x0F) := by
  have hm : (frame_interrupt_1 (driver_init_56_58 g)).machine = gaplus_interrupt_1 g.machine := rfl
  have hi : (frame_interrupt_1 (driver_init_56_58 g)).namcoio_intf 0 = intf0 := rfl
  have hp : (frame_interrupt_1 (driver_init_56_58 g)).input_port = g.input_port := rfl
  have hr : ((gaplus_interrupt_1 g.machine).namcoio 0).reset = false := by
    cases h : (g.machine.cpu 0).interrupt_enable <;>
      simp [gaplus_interrupt_1, irq0_line_assert, namcoio_set_irq_line, cpu_set_input_line,
        h, hreset]
  have hread : namcoio_read_port (frame_interrupt_1 (driver_init_56_58 g)) 0 1 = some 0x0E := by
    simp [namcoio_read_port, hm, hi, hp, hr, intf0, PortReadHandler.run, in0_l,
      input_port_read, hin0]
    rfl
  refine ⟨rfl, rfl, rfl, rfl, ?_, ?_, hread, ?_⟩
  · rw [hm]
    cases h : (g.machine.cpu 0).interrupt_enable <;>
      simp [gaplus_interrupt_1, irq0_line_assert, namcoio_set_irq_line, cpu_set_input_line, h]
  · rw [hm]
    cases h : (g.machine.cpu 0).interrupt_enable <;>
      simp [gaplus_interrupt_1, irq0_line_assert, namcoio_set_irq_line, cpu_set_input_line,
        h, hreset]
  · rw [hread, hin1]
    rfl

theorem end_to_end_scenario_witness :
    (sample_gaplus.input_port PortTag.IN0 = 0xFE ∧ sample_gaplus.input_port PortTag.IN1 = 0xFE ∧
     sample_gaplus.input_port PortTag.DSW0 = 0xC0 ∧
     sample_gaplus.input_port PortTag.DSW1 = 0xC0 ∧
     (sample_gaplus.machine.namcoio 0).reset = false) ∧
    ((frame_interrupt_1 (driver_init_56_58 sample_gaplus)).namcoio_type 0
      = NamcoioType.NAMCOIO_56XX ∧
    (frame_interrupt_1 (driver_init_56_58 sample_gaplus)).namcoio_intf 0 = intf0 ∧
    (frame_interrupt_1 (driver_init_56_58 sample_gaplus)).namcoio_type 1
      = NamcoioType.NAMCOIO_58XX ∧
    (frame_interrupt_1 (driver_init_56_58 sample_gaplus)).namcoio_intf 1 = intf1 ∧
    ((frame_interrupt_1 (driver_init_56_58 sample_gaplus)).machine.namcoio 0).irq_pulses
      = (sample_gaplus.machine.namcoio 0).irq_pulses + 1 ∧
    ((frame_interrupt_1 (driver_init_56_58 sample_gaplus)).machine.namcoio 0).irq_handled
      = (sample_gaplus.machine.namcoio 0).irq_handled + 1 ∧
    namcoio_read_port (frame_interrupt_1 (driver_init_56_58 sample_gaplus)) 0 1 = some 0x0E ∧
    namcoio_read_port (frame_interrupt_1 (driver_init_56_58 sample_gaplus)) 0 1
      = some (sample_gaplus.input_port PortTag.IN1 &&& 0x0F)) :=
  ⟨by decide,
   end_to_end_scenario sample_gaplus (by decide) (by decide) (by decide) (by decide)
     (by decide)⟩

/-- C15, as stated, fails: read port 0 of slot 0 under `DRIVER_INIT( 58_56 )`
is bound to `in1_h` (coins), while read port 0 of slot 1 under
`DRIVER_INIT( 56_58 )` is bound to `dipA_h` (dip switches A); with the sample
inputs the two reads return 0x0F and 0x0C. -/
theorem driver_init_58_56_handlers_not_exchanged :
    ((driver_init_58_56 sample_gaplus).namcoio_intf 0).in_.getD 0 none
      = some PortReadHandler.in1_h ∧
    ((driver_init_56_58 sample_gaplus).namcoio_intf 1).in_.getD 0 none
      = some PortReadHandler.dipA_h ∧
    ((driver_init_58_56 sample_gaplus).namcoio_intf 0).in_.getD 0 none
      ≠ ((driver_init_56_58 sample_gaplus).namcoio_intf 1).in_.getD 0 none ∧
    namcoio_read_port (driver_init_58_56 sample_gaplus) 0 0 = some 0x0F ∧
    namcoio_read_port (driver_init_56_58 sample_gaplus) 1 0 = some 0x0C := by
  decide

/-- C15, amended: comparing `DRIVER_INIT( 58_56 )` with `DRIVER_INIT( 56_58 )`
from the same state: the chip kinds installed in slot 0 and slot 1 are
exchanged (58XX in slot 0 and 56XX in slot 1, against 56XX and 58XX), while
every slot keeps the same interface: slot 0 has `intf0` and slot 1 has `intf1`
in both, so a read of any port of any slot returns the same in both; and the
two resulting states differ in nothing but the chip kinds. -/
theorem driver_init_58_56_vs_56_58 (g : GaplusState) :
    ((driver_init_58_56 g).namcoio_type 0 = NamcoioType.NAMCOIO_58XX ∧
     (driver_init_58_56 g).namcoio_type 1 = NamcoioType.NAMCOIO_56XX ∧
     (driver_init_56_58 g).namcoio_type 0 = NamcoioType.NAMCOIO_56XX ∧
     (driver_init_56_58 g).namcoio_type 1 = NamcoioType.NAMCOIO_58XX) ∧
    ((driver_init_58_56 g).namcoio_intf 0 = intf0 ∧
     (driver_init_58_56 g).namcoio_intf 1 = intf1 ∧
     (driver_init_56_58 g).namcoio_intf 0 = intf0 ∧
     (driver_init_56_58 g).namcoio_intf 1 = intf1) ∧
    (∀ chipnum port, namcoio_read_port (driver_init_58_56 g) chipnum port
        = namcoio_read_port (driver_init_56_58 g) chipnum port) ∧
    driver_init_58_56 g
      = { driver_init_56_58 g with namcoio_type := (driver_init_58_56 g).namcoio_type } := by
  refine ⟨⟨rfl, rfl, rfl, rfl⟩, ⟨rfl, rfl, rfl, rfl⟩, ?_, rfl⟩
  intro chipnum port
  rfl

/-! ## Shared RAM through the address maps -/

theorem map_lookup_read_out (e : MapEntry) (rest : List MapEntry) (a : Nat)
    (h : ¬ (e.start ≤ a ∧ a ≤ e.stop)) :
    map_lookup_read (e :: rest) a = map_lookup_read rest a := by
  simp only [map_lookup_read, if_neg h]

theorem map_lookup_read_in (e : MapEntry) (rest : List MapEntry) (a : Nat)
    (h : e.start ≤ a ∧ a ≤ e.stop) :
    map_lookup_read (e :: rest) a
      = match e.read with
        | some hnd => some (hnd, a - e.start)
        | none => map_lookup_read rest a := by
  simp only [map_lookup_read, if_pos h]

theorem map_lookup_write_out (e : MapEntry) (rest : List MapEntry) (a : Nat)
    (h : ¬ (e.start ≤ a ∧ a ≤ e.stop)) :
    map_lookup_write (e :: rest) a = map_lookup_write rest a := by
  simp only [map_lookup_write, if_neg h]

theorem map_lookup_write_in (e : MapEntry) (rest : List MapEntry) (a : Nat)
    (h : e.start ≤ a ∧ a ≤ e.stop) :
    map_lookup_write (e :: rest) a
      = match e.write with
        | some hnd => some (hnd, a - e.start)
        | none => map_lookup_write rest a := by
  simp only [map_lookup_write, if_pos h]

theorem cpu1_map_spriteram (a : Nat) (h1 : 0x0800 ≤ a) (h2 : a ≤ 0x1FFF) :
    map_lookup_read cpu1_map a = some (ReadHandler.gaplus_spriteram_r, a - 0x0800) ∧
    map_lookup_write cpu1_map a = some (WriteHandler.gaplus_spriteram_w, a - 0x0800) := by
  constructor
  · unfold cpu1_map
    rw [map_lookup_read_out, map_lookup_read_in]
    all_goals first | rfl | (dsimp only; omega)
  · unfold cpu1_map
    rw [map_lookup_write_out, map_lookup_write_in]
    all_goals first | rfl | (dsimp only; omega)

theorem cpu2_map_spriteram (a : Nat) (h1 : 0x0800 ≤ a) (h2 : a ≤ 0x1FFF) :
    map_lookup_read cpu2_map a = some (ReadHandler.gaplus_spriteram_r, a - 0x0800) ∧
    map_lookup_write cpu2_map a = some (WriteHandler.gaplus_spriteram_w, a - 0x0800) := by
  constructor
  · simp only [cpu2_map, map_lookup_read]
    split_ifs <;> first | rfl | omega
  · simp only [cpu2_map, map_lookup_write]
    split_ifs <;> first | rfl | omega

theorem spriteram_read_write (s : Machine) (offset v : Nat) (hv : v < 256) :
    gaplus_spriteram_r (gaplus_spriteram_w s offset v) offset = v := by
  simp [gaplus_spriteram_r, gaplus_spriteram_w, Nat.mod_eq_of_lt hv]

/-- C16: for every address in the shared work-RAM window 0x0800..0x1FFF and
every byte: a write by the main CPU (through `cpu1_map`) immediately followed
by a read at the same address by the sub CPU (through `cpu2_map`) returns the
byte written, and likewise with the processors exchanged; both maps resolve
the address to `gaplus_spriteram_r` / `gaplus_spriteram_w` at offset
`a - 0x0800`, the same element of `gaplus_spriteram`. -/
theorem spriteram_shared (x : Extern) (g : GaplusState) (a v : Nat)
    (ha1 : 0x0800 ≤ a) (ha2 : a ≤ 0x1FFF) (hv : v < 256) :
    cpu_read x cpu2_map (cpu_write x cpu1_map g a v) a = some v ∧
    cpu_read x cpu1_map (cpu_write x cpu2_map g a v) a = some v ∧
    map_lookup_write cpu1_map a = some (WriteHandler.gaplus_spriteram_w, a - 0x0800) ∧
    map_lookup_write cpu2_map a = some (WriteHandler.gaplus_spriteram_w, a - 0x0800) ∧
    map_lookup_read cpu1_map a = some (ReadHandler.gaplus_spriteram_r, a - 0x0800) ∧
    map_lookup_read cpu2_map a = some (ReadHandler.gaplus_spriteram_r, a - 0x0800) ∧
    (cpu_write x cpu1_map g a v).machine.gaplus_spriteram (a - 0x0800) = v ∧
    (cpu_write x cpu2_map g a v).machine.gaplus_spriteram (a - 0x0800) = v := by
  obtain ⟨r1, w1⟩ := cpu1_map_spriteram a ha1 ha2
  obtain ⟨r2, w2⟩ := cpu2_map_spriteram a ha1 ha2
  have rw_ := spriteram_read_write g.machine (a - 0x0800) v hv
  refine ⟨?_, ?_, w1, w2, r1, r2, ?_, ?_⟩
  · simp only [cpu_read, cpu_write, r2, w1, WriteHandler.run, ReadHandler.run]
    rw [rw_]
  · simp only [cpu_read, cpu_write, r1, w2, WriteHandler.run, ReadHandler.run]
    rw [rw_]
  · simp only [cpu_write, w1, WriteHandler.run]
    exact rw_
  · simp only [cpu_write, w2, WriteHandler.run]
    exact rw_

theorem spriteram_shared_witness :
    (0x0800 ≤ 0x0F80 ∧ 0x0F80 ≤ 0x1FFF ∧ 0x5A < 256) ∧
    (cpu_read sample_extern cpu2_map (cpu_write sample_extern cpu1_map sample_gaplus 0x0F80 0x5A)
        0x0F80 = some 0x5A ∧
    cpu_read sample_extern cpu1_map (cpu_write sample_extern cpu2_map sample_gaplus 0x0F80 0x5A)
        0x0F80 = some 0x5A ∧
    map_lookup_write cpu1_map 0x0F80 = some (WriteHandler.gaplus_spriteram_w, 0x0F80 - 0x0800) ∧
    map_lookup_write cpu2_map 0x0F80 = some (WriteHandler.gaplus_spriteram_w, 0x0F80 - 0x0800) ∧
    map_lookup_read cpu1_map 0x0F80 = some (ReadHandler.gaplus_spriteram_r, 0x0F80 - 0x0800) ∧
    map_lookup_read cpu2_map 0x0F80 = some (ReadHandler.gaplus_spriteram_r, 0x0F80 - 0x0800) ∧
    (cpu_write sample_extern cpu1_map sample_gaplus 0x0F80 0x5A).machine.gaplus_spriteram
        (0x0F80 - 0x0800) = 0x5A ∧
    (cpu_write sample_extern cpu2_map sample_gaplus 0x0F80 0x5A).machine.gaplus_spriteram
        (0x0F80 - 0x0800) = 0x5A) :=
  ⟨by decide,
   spriteram_shared sample_extern sample_gaplus 0x0F80 0x5A (by decide) (by decide) (by decide)⟩

theorem cpu1_map_snd_sharedram (o : Nat) (ho : o ≤ 0x3FF) :
    map_lookup_read cpu1_map (0x6000 + o) = some (ReadHandler.gaplus_snd_sharedram_r, o) ∧
    map_lookup_write cpu1_map (0x6000 + o)
      = some (WriteHandler.gaplus_snd_sharedram_w, o) := by
  have e : 0x6000 + o - 0x6000 = o := by omega
  constructor
  · unfold cpu1_map
    rw [map_lookup_read_out, map_lookup_read_out, map_lookup_read_in]
    · dsimp only
      rw [e]
    all_goals (dsimp only; omega)
  · unfold cpu1_map
    rw [map_lookup_write_out, map_lookup_write_out, map_lookup_write_in]
    · dsimp only
      rw [map_lookup_write_in]
      · dsimp only
        rw [e]
      · dsimp only
        omega
    all_goals (dsimp only; omega)

theorem cpu3_map_snd_sharedram (o : Nat) (ho : o ≤ 0x3FF) :
    map_lookup_read cpu3_map o = some (ReadHandler.gaplus_snd_sharedram_r, o) ∧
    map_lookup_write cpu3_map o = some (WriteHandler.gaplus_snd_sharedram_w, o) := by
  constructor
  · simp only [cpu3_map, map_lookup_read]
    split_ifs <;> first | rfl | omega
  · simp only [cpu3_map, map_lookup_write]
    split_ifs <;> first | rfl | omega

theorem snd_sharedram_read_write (s : Machine) (offset v : Nat) (hv : v < 256) :
    gaplus_snd_sharedram_r (gaplus_snd_sharedram_w s offset v) offset = v := by
  by_cases h : offset < 0x40 <;>
    simp [gaplus_snd_sharedram_r, gaplus_snd_sharedram_w, namco_15xx_w, h,
      Nat.mod_eq_of_lt hv]

/-- C17: for every offset 0..0x3FF of the sound shared region and every byte:
a write through `gaplus_snd_sharedram_w` by the main CPU (address 0x6000+o)
immediately followed by a read through `gaplus_snd_sharedram_r` by the sound
CPU (address o) returns the byte written, and likewise with the processors
exchanged; this holds for the sound-register offsets below 0x40 and for the
offsets 0x40..0x3FF alike. -/
theorem snd_sharedram_shared (x : Extern) (g : GaplusState) (o v : Nat)
    (ho : o ≤ 0x3FF) (hv : v < 256) :
    cpu_read x cpu3_map (cpu_write x cpu1_map g (0x6000 + o) v) o = some v ∧
    cpu_read x cpu1_map (cpu_write x cpu3_map g o v) (0x6000 + o) = some v ∧
    gaplus_snd_sharedram_r (gaplus_snd_sharedram_w g.machine o v) o = v := by
  obtain ⟨r1, w1⟩ := cpu1_map_snd_sharedram o ho
  obtain ⟨r3, w3⟩ := cpu3_map_snd_sharedram o ho
  have rw_ := snd_sharedram_read_write g.machine o v hv
  refine ⟨?_, ?_, rw_⟩
  · simp only [cpu_read, cpu_write, r3, w1, WriteHandler.run, ReadHandler.run]
    rw [rw_]
  · simp only [cpu_read, cpu_write, r1, w3, WriteHandler.run, ReadHandler.run]
    rw [rw_]

theorem snd_sharedram_shared_witness :
    (0x10 ≤ 0x3FF ∧ 0xA5 < 256) ∧
    (cpu_read sample_extern cpu3_map
        (cpu_write sample_extern cpu1_map sample_gaplus (0x6000 + 0x10) 0xA5) 0x10 = some 0xA5 ∧
    cpu_read sample_extern cpu1_map
        (cpu_write sample_extern cpu3_map sample_gaplus 0x10 0xA5) (0x6000 + 0x10) = some 0xA5 ∧
    gaplus_snd_sharedram_r (gaplus_snd_sharedram_w sample_gaplus.machine 0x10 0xA5) 0x10
      = 0xA5) :=
  ⟨by decide, snd_sharedram_shared sample_extern sample_gaplus 0x10 0xA5 (by decide) (by decide)⟩

/-! ## Aliases of the main CPU irq-control window -/

theorem gaplus_irq_1_ctrl_w_cpu0_disable (s : Machine) (offset data : Nat)
    (h : offset / 2048 % 2 = 1) :
    ((gaplus_irq_1_ctrl_w s offset data).cpu 0).interrupt_enable = false ∧
    ((gaplus_irq_1_ctrl_w s offset data).cpu 0).irq0 = LineState.CLEAR_LINE := by
  rcases lnot_BIT_11 offset with ⟨h0, hb⟩ | ⟨h1, hb⟩
  · omega
  · simp [gaplus_irq_1_ctrl_w, cpu_interrupt_enable, cpu_set_input_line, hb]


theorem cpu1_map_irq_ctrl (a : Nat) (h1 : 0x7000 ≤ a) (h2 : a ≤ 0x7FFF) :
    map_lookup_write cpu1_map a = some (WriteHandler.gaplus_irq_1_ctrl_w, a - 0x7000) := by
  unfold cpu1_map
  rw [map_lookup_write_out, map_lookup_write_out, map_lookup_write_out, map_lookup_write_out,
    map_lookup_write_out, map_lookup_write_out, map_lookup_write_in]
  all_goals first | rfl | (dsimp only; omega)

theorem cpu1_map_customio_3 (a : Nat) (h1 : 0x6820 ≤ a) (h2 : a ≤ 0x682F) :
    map_lookup_write cpu1_map a = some (WriteHandler.gaplus_customio_3_w, a - 0x6820) := by
  unfold cpu1_map
  rw [map_lookup_write_out, map_lookup_write_out, map_lookup_write_out, map_lookup_write_out,
    map_lookup_write_in]
  all_goals first | rfl | (dsimp only; omega)

theorem irq_1_ctrl_w_same_bit (s : Machine) (o1 o2 d1 d2 : Nat)
    (h : o1 / 2048 % 2 = o2 / 2048 % 2) :
    gaplus_irq_1_ctrl_w s o1 d1 = gaplus_irq_1_ctrl_w s o2 d2 := by
  have e : BIT o1 11 = BIT o2 11 := by
    rw [BIT_eq_div_mod, BIT_eq_div_mod]
    norm_num
    exact h
  simp only [gaplus_irq_1_ctrl_w, e]

/-- C18: for every main-CPU write address in the alias range 0x7820..0x782F and
every data value, the write resolves to `gaplus_irq_1_ctrl_w` at offset
`a - 0x7000`, whose bit 11 is set, so it disables the interrupt of cpu 0 and
clears its line; it does not resolve to the third I/O chip window
0x6820..0x682F (where `a - 0x1000` resolves to `gaplus_customio_3_w`) and leaves
the array of that window unchanged; and two write addresses in 0x7000..0x7FFF
that differ only in the address bits A0-A10 give the same resulting state. -/
theorem irq_ctrl_alias_preserved (x : Extern) (g : GaplusState) (a data : Nat)
    (ha1 : 0x7820 ≤ a) (ha2 : a ≤ 0x782F) :
    map_lookup_write cpu1_map a = some (WriteHandler.gaplus_irq_1_ctrl_w, a - 0x7000) ∧
    (a - 0x7000) / 2048 % 2 = 1 ∧
    map_lookup_write cpu1_map (a - 0x1000)
      = some (WriteHandler.gaplus_customio_3_w, a - 0x1000 - 0x6820) ∧
    cpu_write x cpu1_map g a data
      = { g with machine := gaplus_irq_1_ctrl_w g.machine (a - 0x7000) data } ∧
    ((cpu_write x cpu1_map g a data).machine.cpu 0).interrupt_enable = false ∧
    ((cpu_write x cpu1_map g a data).machine.cpu 0).irq0 = LineState.CLEAR_LINE ∧
    (cpu_write x cpu1_map g a data).gaplus_customio_3 = g.gaplus_customio_3 ∧
    (∀ b c d e, 0x7000 ≤ b → b ≤ 0x7FFF → 0x7000 ≤ c → c ≤ 0x7FFF → b / 2048 = c / 2048 →
        cpu_write x cpu1_map g b d = cpu_write x cpu1_map g c e) := by
  have hl := cpu1_map_irq_ctrl a (by omega) (by omega)
  have hbit : (a - 0x7000) / 2048 % 2 = 1 := by omega
  have hc := cpu1_map_customio_3 (a - 0x1000) (by omega) (by omega)
  have hall : ∀ b c d e, 0x7000 ≤ b → b ≤ 0x7FFF → 0x7000 ≤ c → c ≤ 0x7FFF →
      b / 2048 = c / 2048 → cpu_write x cpu1_map g b d = cpu_write x cpu1_map g c e := by
    intro b c d e hb1 hb2 hc1 hc2 hbc
    have lb := cpu1_map_irq_ctrl b hb1 hb2
    have lc := cpu1_map_irq_ctrl c hc1 hc2
    simp only [cpu_write, lb, lc, WriteHandler.run]
    rw [irq_1_ctrl_w_same_bit g.machine (b - 0x7000) (c - 0x7000) d e (by omega)]
  generalize a - 0x7000 = o at hl hbit ⊢
  have hw : cpu_write x cpu1_map g a data
      = { g with machine := gaplus_irq_1_ctrl_w g.machine o data } := by
    simp only [cpu_write, hl, WriteHandler.run]
  have hspec := gaplus_irq_1_ctrl_w_cpu0_disable g.machine o data hbit
  have hm : (cpu_write x cpu1_map g a data).machine
      = gaplus_irq_1_ctrl_w g.machine o data := by rw [hw]
  refine ⟨hl, hbit, hc, hw, ?_, ?_, ?_, hall⟩
  · rw [hm]; exact hspec.1
  · rw [hm]; exact hspec.2
  · rw [hw]

theorem irq_ctrl_alias_preserved_witness :
    (0x7820 ≤ 0x7825 ∧ 0x7825 ≤ 0x782F) ∧
    (map_lookup_write cpu1_map 0x7825
        = some (WriteHandler.gaplus_irq_1_ctrl_w, 0x7825 - 0x7000) ∧
    (0x7825 - 0x7000) / 2048 % 2 = 1 ∧
    map_lookup_write cpu1_map (0x7825 - 0x1000)
      = some (WriteHandler.gaplus_customio_3_w, 0x7825 - 0x1000 - 0x6820) ∧
    cpu_write sample_extern cpu1_map sample_gaplus 0x7825 0x3C
      = { sample_gaplus with
            machine := gaplus_irq_1_ctrl_w sample_gaplus.machine (0x7825 - 0x7000) 0x3C } ∧
    ((cpu_write sample_extern cpu1_map sample_gaplus 0x7825 0x3C).machine.cpu 0).interrupt_enable
      = false ∧
    ((cpu_write sample_extern cpu1_map sample_gaplus 0x7825 0x3C).machine.cpu 0).irq0
      = LineState.CLEAR_LINE ∧
    (cpu_write sample_extern cpu1_map sample_gaplus 0x7825 0x3C).gaplus_customio_3
      = sample_gaplus.gaplus_customio_3 ∧
    (∀ b c d e, 0x7000 ≤ b → b ≤ 0x7FFF → 0x7000 ≤ c → c ≤ 0x7FFF → b / 2048 = c / 2048 →
        cpu_write sample_extern cpu1_map sample_gaplus b d
          = cpu_write sample_extern cpu1_map sample_gaplus c e)) :=
  ⟨by decide,
   irq_ctrl_alias_preserved sample_extern sample_gaplus 0x7825 0x3C (by decide) (by decide)⟩

/-! ## Frame of the secondary reset lines -/

/-- C19: for every state and every argument, each of the three interrupt-control
writes, `gaplus_freset_w`, the shared-RAM writes `gaplus_spriteram_w` and
`gaplus_snd_sharedram_w`, the lamp and coin writes `out_lamps0` and
`out_lamps1`, the frame event (`gaplus_interrupt_1` and the whole
`vblank_interrupts`) and the machine reset leave the reset lines of cpu 1 (sub)
and cpu 2 (sound) as they were; `gaplus_sreset_w` does change them (from the
sample state, where both are asserted, a write at offset 0 clears both). -/
theorem secondary_reset_only_by_sreset (s : Machine) (offset data : Nat) :
    (((gaplus_irq_1_ctrl_w s offset data).cpu 1).reset = (s.cpu 1).reset ∧
     ((gaplus_irq_1_ctrl_w s offset data).cpu 2).reset = (s.cpu 2).reset) ∧
    (((gaplus_irq_2_ctrl_w s offset data).cpu 1).reset = (s.cpu 1).reset ∧
     ((gaplus_irq_2_ctrl_w s offset data).cpu 2).reset = (s.cpu 2).reset) ∧
    (((gaplus_irq_3_ctrl_w s offset data).cpu 1).reset = (s.cpu 1).reset ∧
     ((gaplus_irq_3_ctrl_w s offset data).cpu 2).reset = (s.cpu 2).reset) ∧
    (((gaplus_freset_w s offset data).cpu 1).reset = (s.cpu 1).reset ∧
     ((gaplus_freset_w s offset data).cpu 2).reset = (s.cpu 2).reset) ∧
    (((gaplus_spriteram_w s offset data).cpu 1).reset = (s.cpu 1).reset ∧
     ((gaplus_spriteram_w s offset data).cpu 2).reset = (s.cpu 2).reset) ∧
    (((gaplus_snd_sharedram_w s offset data).cpu 1).reset = (s.cpu 1).reset ∧
     ((gaplus_snd_sharedram_w s offset data).cpu 2).reset = (s.cpu 2).reset) ∧
    (((out_lamps0 s offset data).cpu 1).reset = (s.cpu 1).reset ∧
     ((out_lamps0 s offset data).cpu 2).reset = (s.cpu 2).reset) ∧
    (((out_lamps1 s offset data).cpu 1).reset = (s.cpu 1).reset ∧
     ((out_lamps1 s offset data).cpu 2).reset = (s.cpu 2).reset) ∧
    (((gaplus_interrupt_1 s).cpu 1).reset = (s.cpu 1).reset ∧
     ((gaplus_interrupt_1 s).cpu 2).reset = (s.cpu 2).reset) ∧
    (((vblank_interrupts s).cpu 1).reset = (s.cpu 1).reset ∧
     ((vblank_interrupts s).cpu 2).reset = (s.cpu 2).reset) ∧
    (((machine_reset_gaplus s).cpu 1).reset = (s.cpu 1).reset ∧
     ((machine_reset_gaplus s).cpu 2).reset = (s.cpu 2).reset) ∧
    (((gaplus_sreset_w sample_state 0 0).cpu 1).reset ≠ (sample_state.cpu 1).reset ∧
     ((gaplus_sreset_w sample_state 0 0).cpu 2).reset ≠ (sample_state.cpu 2).reset) := by
  refine ⟨?_, ?_, ?_, ?_, ⟨rfl, rfl⟩, ?_, ⟨rfl, rfl⟩, ⟨rfl, rfl⟩, ?_, ?_, ?_, ?_⟩
  · by_cases h : lnot (BIT offset 11) = 0 <;>
      simp [gaplus_irq_1_ctrl_w, cpu_interrupt_enable, cpu_set_input_line, h]
  · rcases and_one_cases offset with ⟨h, hb⟩ | ⟨h, hb⟩ <;>
      simp [gaplus_irq_2_ctrl_w, cpu_interrupt_enable, cpu_set_input_line, hb, h]
  · by_cases h : lnot (BIT offset 13) = 0 <;>
      simp [gaplus_irq_3_ctrl_w, cpu_interrupt_enable, cpu_set_input_line, h]
  · exact ⟨rfl, rfl⟩
  · by_cases h : offset < 0x40 <;> simp [gaplus_snd_sharedram_w, namco_15xx_w, h]
  · cases h : (s.cpu 0).interrupt_enable <;>
      simp [gaplus_interrupt_1, irq0_line_assert, namcoio_set_irq_line, cpu_set_input_line, h]
  · cases h0 : (s.cpu 0).interrupt_enable <;> cases h1 : (s.cpu 1).interrupt_enable <;>
      cases h2 : (s.cpu 2).interrupt_enable <;>
      simp [vblank_interrupts, gaplus_interrupt_1, irq0_line_assert, namcoio_set_irq_line,
        cpu_set_input_line, h0, h1, h2]
  · simp [machine_reset_gaplus, cpu_interrupt_enable, cpu_set_input_line]
  · constructor <;> decide

/-! ## Interleave resolution -/

/-- C20, as stated, fails: the quantum frequency divided by the screen refresh
rate is not at least 1000. -/
theorem quanta_per_frame_not_thousands : ¬ (1000 ≤ quanta_per_frame) := by
  norm_num [quanta_per_frame, quantum_time_hz, screen_refresh_rate]

/-- C20, amended: the quantum frequency set by the machine configuration (6000
per second) divided by the configured screen refresh rate (60.606060 frames per
second) is at least 99 and below 100: on the order of a hundred interleave
points per video frame. -/
theorem quanta_per_frame_about_99 :
    quantum_time_hz = 6000 ∧ screen_refresh_rate = 60606060 / 1000000 ∧
    99 ≤ quanta_per_frame ∧ quanta_per_frame < 100 := by
  refine ⟨rfl, rfl, ?_, ?_⟩ <;>
    norm_num [quanta_per_frame, quantum_time_hz, screen_refresh_rate]

/-! ## Graphics unpacking -/

theorem unpack_gfx1_loop_eq (rom : Nat → Nat) (n : Nat) (hn : n ≤ 0x2000) (a : Nat) :
    unpack_gfx1_loop rom n a
      = if 0x2000 ≤ a ∧ a < n + 0x2000 then (rom (a - 0x2000) >>> 4) % 256 else rom a := by
  induction n generalizing a with
  | zero =>
    have h : ¬ (0x2000 ≤ a ∧ a < 0 + 0x2000) := by omega
    rw [if_neg h]
    rfl
  | succ n ih =>
    have hn1 : n ≤ 0x2000 := by omega
    show (if a = n + 0x2000 then (unpack_gfx1_loop rom n n >>> 4) % 256
          else unpack_gfx1_loop rom n a) = _
    by_cases ha : a = n + 0x2000
    · have hc : 0x2000 ≤ a ∧ a < n + 1 + 0x2000 := by omega
      have hr : ¬ (0x2000 ≤ n ∧ n < n + 0x2000) := by omega
      have hs : a - 0x2000 = n := by omega
      rw [if_pos ha, if_pos hc, ih hn1 n, if_neg hr, hs]
    · rw [if_neg ha, ih hn1 a]
      by_cases hc : 0x2000 ≤ a ∧ a < n + 0x2000
      · have hc1 : 0x2000 ≤ a ∧ a < n + 1 + 0x2000 := by omega
        rw [if_pos hc, if_pos hc1]
      · have hc1 : ¬ (0x2000 ≤ a ∧ a < n + 1 + 0x2000) := by omega
        rw [if_neg hc, if_neg hc1]

theorem unpack_gfx2_loop_eq (region : Nat → Nat) (n : Nat) (hn : n ≤ 0x2000) (a : Nat) :
    unpack_gfx2_loop region n a
      = if 0x8000 ≤ a ∧ a < n + 0x8000 then (region (a - 0x2000) <<< 4) % 256
        else region a := by
  induction n generalizing a with
  | zero =>
    have h : ¬ (0x8000 ≤ a ∧ a < 0 + 0x8000) := by omega
    rw [if_neg h]
    rfl
  | succ n ih =>
    have hn1 : n ≤ 0x2000 := by omega
    show (if a = 0x6000 + (n + 0x2000) then (unpack_gfx2_loop region n (0x6000 + n) <<< 4) % 256
          else unpack_gfx2_loop region n a) = _
    by_cases ha : a = 0x6000 + (n + 0x2000)
    · have hc : 0x8000 ≤ a ∧ a < n + 1 + 0x8000 := by omega
      have hr : ¬ (0x8000 ≤ 0x6000 + n ∧ 0x6000 + n < n + 0x8000) := by omega
      have hs : a - 0x2000 = 0x6000 + n := by omega
      rw [if_pos ha, if_pos hc, ih hn1 (0x6000 + n), if_neg hr, hs]
    · rw [if_neg ha, ih hn1 a]
      by_cases hc : 0x8000 ≤ a ∧ a < n + 0x8000
      · have hc1 : 0x8000 ≤ a ∧ a < n + 1 + 0x8000 := by omega
        rw [if_pos hc, if_pos hc1]
      · have hc1 : ¬ (0x8000 ≤ a ∧ a < n + 1 + 0x8000) := by omega
        rw [if_neg hc, if_neg hc1]

theorem unpack_gfx_gfx1 (g : GaplusState) (a : Nat) :
    (unpack_gfx g).gfx1 a
      = if 0x2000 ≤ a ∧ a < 0x2000 + 0x2000 then (g.gfx1 (a - 0x2000) >>> 4) % 256
        else g.gfx1 a :=
  unpack_gfx1_loop_eq g.gfx1 0x2000 (Nat.le_refl _) a

theorem unpack_gfx_gfx2 (g : GaplusState) (a : Nat) :
    (unpack_gfx g).gfx2 a
      = if 0x8000 ≤ a ∧ a < 0x2000 + 0x8000 then (g.gfx2 (a - 0x2000) <<< 4) % 256
        else g.gfx2 a :=
  unpack_gfx2_loop_eq g.gfx2 0x2000 (Nat.le_refl _) a

/-- C21: for every content of the regions "gfx1" and "gfx2" (bytes, so values
below 256), after `unpack_gfx`: for every i in 0..0x1FFF, byte 0x2000+i of
"gfx1" is the original byte i shifted right by 4, a value in 0..15, and byte
0x8000+i of "gfx2" is the original byte 0x6000+i shifted left by 4 and
truncated to 8 bits, that is its low nibble moved to the high nibble with the
low nibble zero; every other byte of both regions ("gfx1" below 0x2000, "gfx2"
below 0x8000 and from 0xA000 on) is unchanged. -/
theorem unpack_gfx_spec (g : GaplusState)
    (hgfx1 : ∀ a, g.gfx1 a < 256) (hgfx2 : ∀ a, g.gfx2 a < 256) :
    (∀ i, i < 0x2000 →
        (unpack_gfx g).gfx1 (0x2000 + i) = g.gfx1 i >>> 4 ∧
        (unpack_gfx g).gfx1 (0x2000 + i) ≤ 15) ∧
    (∀ i, i < 0x2000 →
        (unpack_gfx g).gfx2 (0x8000 + i) = (g.gfx2 (0x6000 + i) <<< 4) % 256 ∧
        (unpack_gfx g).gfx2 (0x8000 + i) = (g.gfx2 (0x6000 + i) % 16) * 16 ∧
        (unpack_gfx g).gfx2 (0x8000 + i) % 16 = 0) ∧
    (∀ a, a < 0x2000 → (unpack_gfx g).gfx1 a = g.gfx1 a) ∧
    (∀ a, a < 0x8000 ∨ 0xA000 ≤ a → (unpack_gfx g).gfx2 a = g.gfx2 a) := by
  refine ⟨?_, ?_, ?_, ?_⟩
  · intro i hi
    have hc : 0x2000 ≤ 0x2000 + i ∧ 0x2000 + i < 0x2000 + 0x2000 := by omega
    have hs : 0x2000 + i - 0x2000 = i := by omega
    have hb := hgfx1 i
    have hv : (g.gfx1 i >>> 4) % 256 = g.gfx1 i >>> 4 ∧ g.gfx1 i >>> 4 ≤ 15 := by
      rw [Nat.shiftRight_eq_div_pow]
      omega
    rw [unpack_gfx_gfx1, if_pos hc, hs, hv.1]
    exact ⟨rfl, hv.2⟩
  · intro i hi
    have hc : 0x8000 ≤ 0x8000 + i ∧ 0x8000 + i < 0x2000 + 0x8000 := by omega
    have hs : 0x8000 + i - 0x2000 = 0x6000 + i := by omega
    have hb := hgfx2 (0x6000 + i)
    have hv : (g.gfx2 (0x6000 + i) <<< 4) % 256 = (g.gfx2 (0x6000 + i) % 16) * 16 ∧
        (g.gfx2 (0x6000 + i) <<< 4) % 256 % 16 = 0 := by
      rw [Nat.shiftLeft_eq]
      omega
    rw [unpack_gfx_gfx2, if_pos hc, hs]
    exact ⟨rfl, hv.1, hv.2⟩
  · intro a ha
    have hc : ¬ (0x2000 ≤ a ∧ a < 0x2000 + 0x2000) := by omega
    rw [unpack_gfx_gfx1, if_neg hc]
  · intro a ha
    have hc : ¬ (0x8000 ≤ a ∧ a < 0x2000 + 0x8000) := by omega
    rw [unpack_gfx_gfx2, if_neg hc]

theorem unpack_gfx_spec_witness :
    ((∀ a, sample_gfx.gfx1 a < 256) ∧ (∀ a, sample_gfx.gfx2 a < 256)) ∧
    ((∀ i, i < 0x2000 →
        (unpack_gfx sample_gfx).gfx1 (0x2000 + i) = sample_gfx.gfx1 i >>> 4 ∧
        (unpack_gfx sample_gfx).gfx1 (0x2000 + i) ≤ 15) ∧
    (∀ i, i < 0x2000 →
        (unpack_gfx sample_gfx).gfx2 (0x8000 + i) = (sample_gfx.gfx2 (0x6000 + i) <<< 4) % 256 ∧
        (unpack_gfx sample_gfx).gfx2 (0x8000 + i) = (sample_gfx.gfx2 (0x6000 + i) % 16) * 16 ∧
        (unpack_gfx sample_gfx).gfx2 (0x8000 + i) % 16 = 0) ∧
    (∀ a, a < 0x2000 → (unpack_gfx sample_gfx).gfx1 a = sample_gfx.gfx1 a) ∧
    (∀ a, a < 0x8000 ∨ 0xA000 ≤ a → (unpack_gfx sample_gfx).gfx2 a = sample_gfx.gfx2 a)) :=
  ⟨⟨fun a => Nat.mod_lt _ (by decide), fun a => Nat.mod_lt _ (by decide)⟩,
   unpack_gfx_spec sample_gfx (fun a => Nat.mod_lt _ (by decide))
     (fun a => Nat.mod_lt _ (by decide))⟩

end Gaplus
